import Mathlib

/-!
ChartAnalyzer core: shallow embedding and verification

This file embeds the scoring core of the ChartAnalyzer backend
(`backend/app/analysis/*.py`, `backend/app/strategies/*.py`,
`backend/app/services/*.py`) into Lean and proves or refutes the frozen
specification claims about it.

Modelling conventions, used uniformly below:

* Python/pandas floats are modelled by `ℚ`.  Division is Lean's total
  division on `ℚ` (`x / 0 = 0`); every division performed by the code on the
  inputs considered by a theorem has a nonzero denominator unless noted.
* A pandas `Series` with NaN entries (e.g. the head of a rolling mean) is
  modelled as `List (Option ℚ)`, with `none` standing for NaN.  Python float
  comparisons with NaN are always `False`; the helpers `optLtQ`, `qLtOpt`,
  `qGtOpt` reproduce exactly that.
* `x / np.inf = 0` for finite `x`; where the source divides by a value that
  has been `replace(0, np.inf)`-substituted, the embedding returns `0` for
  the substituted case, which is the exact float result.
* `round(x, n)` is modelled as `(round (10^n * x)) / 10^n` with Mathlib's
  `round` (round half away from zero for halves; binary-float `round` can
  differ on exact halves, which no theorem below depends on: each theorem
  that touches rounding only uses `|round1 x - x| ≤ 1/20`, true for every
  rounding-to-one-decimal convention, or evaluates at inputs where the
  convention is irrelevant to the claim being settled).
* Human-readable message strings are kept verbatim when they are constant in
  the source.  Messages that interpolate numbers (`f"... ({x:.1f}%)"`) are
  elided from the embedding: no claim depends on their contents, and the
  insufficient-data messages that claims do depend on are constant.
* Sub-score functions mutate `bullish/bearish/warnings` lists only by
  appending messages; since no claim depends on the appended interpolated
  messages, the embedded sub-score functions return the numeric score only,
  and the `analyze` wrappers assemble the `StrategyResult` with the exact
  constant lists in the insufficient-data branch (the branch claims are
  about).
-/

namespace ChartAnalyzer

/-- One OHLCV bar (`backend/app/models/stock.py::PriceData`, as consumed by
the analysis `DataFrame`): open, high, low, close, volume.  The timestamp
index is irrelevant to every computation modelled here (all rolling windows
are row-count based) and is omitted. -/
structure Bar where
  openPrice : ℚ
  high : ℚ
  low : ℚ
  close : ℚ
  volume : ℚ
deriving DecidableEq, Repr

/-- Closing prices of a bar list (the `df["close"]` column). -/
def closes (bars : List Bar) : List ℚ := bars.map Bar.close

/-- High prices (`df["high"]`). -/
def highs (bars : List Bar) : List ℚ := bars.map Bar.high

/-- Low prices (`df["low"]`). -/
def lows (bars : List Bar) : List ℚ := bars.map Bar.low

/-- Volume column (`df["volume"]`). -/
def volumes (bars : List Bar) : List ℚ := bars.map Bar.volume

/-- Embeds `series.iloc[-k]` for `1 ≤ k ≤ len`: the `k`-th element from the end.
Out-of-range access (which would raise in pandas) returns `none`. -/
def ilocNeg (xs : List α) (k : ℕ) : Option α := xs.get? (xs.length - k)

/-- Embeds `series.iloc[-k]` with a default, for places where the source guards the
access so it cannot fail. -/
def ilocNegD (xs : List ℚ) (k : ℕ) (d : ℚ) : ℚ := (ilocNeg xs k).getD d

/-- Embeds `series.iloc[-1]` with default `0`; every use is guarded by a nonempty
check in the source. -/
def lastD (xs : List ℚ) : ℚ := (ilocNeg xs 1).getD 0

/-- Embeds `series.tail(n)`: the last `min n len` elements. -/
def tailN (xs : List α) (n : ℕ) : List α := xs.drop (xs.length - n)

/-- Arithmetic mean of a list; `0` for the empty list (pandas `mean()` of an
empty selection is NaN, and every use below is guarded by a nonemptiness
check in the source). -/
def listMean (xs : List ℚ) : ℚ := xs.sum / xs.length

/-- Maximum of a list of rationals, `0` when empty (guarded in the source). -/
def listMax (xs : List ℚ) : ℚ :=
  match xs with
  | [] => 0
  | x :: rest => rest.foldl max x

/-- Minimum counterpart of `listMax`. -/
def listMin (xs : List ℚ) : ℚ :=
  match xs with
  | [] => 0
  | x :: rest => rest.foldl min x

/-- Python float comparison `a < b` where `b` may be NaN: NaN compares
`False`. -/
def qLtOpt (a : ℚ) (b : Option ℚ) : Bool :=
  match b with
  | some v => decide (a < v)
  | none => false

/-- Python float comparison `a > b` where `b` may be NaN. -/
def qGtOpt (a : ℚ) (b : Option ℚ) : Bool :=
  match b with
  | some v => decide (v < a)
  | none => false

/-- Python float comparison `a > b` where either side may be NaN. -/
def qGtOptOpt (a b : Option ℚ) : Bool :=
  match a, b with
  | some x, some y => decide (y < x)
  | _, _ => false

/-- Python truthiness of an optional float (`if x:`): `None` and `0.0` are
falsy. -/
def truthy (o : Option ℚ) : Bool :=
  match o with
  | some v => decide (v ≠ 0)
  | none => false

/-- Embeds `series.rolling(window=w).mean()` as a list of optional values: entry `i`
is the mean of entries `i-w+1 … i` when the full window is available and NaN
(`none`) otherwise.  This also models `min_periods=w` (the rolling default
and the explicit RSI setting). -/
def rollingMean (xs : List ℚ) (w : ℕ) : List (Option ℚ) :=
  (List.range xs.length).map fun i =>
    if w ≤ i + 1 then some (listMean ((xs.drop (i + 1 - w)).take w)) else none

/-- Embeds `series.dropna()` on an optional-valued series. -/
def dropna (xs : List (Option ℚ)) : List ℚ := xs.filterMap id

/-!
Indicator engine (`backend/app/analysis/indicators.py`)

Only the RSI computation is needed by a claim (C1); it is embedded exactly.
-/

/-- Embeds `TechnicalIndicators._calculate_rsi` (indicators.py:132-149) with the
default `rsi_period = 14`, returning the final value `rsi.iloc[-1]`.

Source steps, reproduced:
* `len(close) < period + 1` → `None`;
* `delta = close.diff()`; `gain = delta.where(delta > 0, 0.0)` and
  `loss = (-delta).where(delta < 0, 0.0)` — the leading NaN of `diff` fails
  both comparisons and is replaced by `0.0`, so gain/loss are NaN-free;
* `avg_gain/avg_loss = rolling(14, min_periods=14).mean()`; the last entry
  is the mean of the last 14 gains/losses, none of which is the (replaced)
  index-0 entry because `len ≥ 15`;
* `rs = avg_gain / avg_loss.replace(0, np.inf)`: when the average loss is
  `0` it is replaced by `np.inf`, and `avg_gain / inf = 0.0` in floats, so
  the embedded `rs` is `0` in that case;
* `rsi = 100 - 100 / (1 + rs)`. -/
def calculateRsi (close : List ℚ) : Option ℚ :=
  let period : ℕ := 14
  if close.length < period + 1 then none
  else
    let deltas := (close.zip (close.drop 1)).map fun p => p.2 - p.1
    let lastDeltas := tailN deltas period
    let gains := lastDeltas.map fun d => if 0 < d then d else 0
    let losses := lastDeltas.map fun d => if d < 0 then -d else 0
    let avgGain := gains.sum / (period : ℚ)
    let avgLoss := losses.sum / (period : ℚ)
    let rs := if avgLoss = 0 then 0 else avgGain / avgLoss
    some (100 - 100 / (1 + rs))

/-!
Shared model types (`backend/app/models/analysis.py`)
-/

/-- Embeds `SignalType` enumeration (analysis.py). -/
inductive SignalType where
  | BUY
  | SELL
  | HOLD
  | AVOID
deriving DecidableEq, Repr

/-- Embeds `ConvictionLevel` enumeration (analysis.py). -/
inductive ConvictionLevel where
  | HIGH
  | MEDIUM
  | LOW
deriving DecidableEq, Repr

/-- Embeds `WeinsteinStage` enumeration (analysis.py): 1 basing, 2 advancing,
3 topping, 4 declining. -/
inductive WStage where
  | stage1
  | stage2
  | stage3
  | stage4
deriving DecidableEq, Repr

/-- The `Indicators` model (analysis.py) / the `indicator_dict` passed to the
strategies: every field optional, `none` when the indicator engine could not
compute it (`_indicators_to_dict` strips `None` entries, so a dict lookup
returning no entry and a model field that is `None` coincide). -/
structure Indicators where
  sma_10 : Option ℚ := none
  sma_20 : Option ℚ := none
  sma_50 : Option ℚ := none
  sma_150 : Option ℚ := none
  sma_200 : Option ℚ := none
  ema_8 : Option ℚ := none
  ema_21 : Option ℚ := none
  macd : Option ℚ := none
  macd_signal : Option ℚ := none
  macd_histogram : Option ℚ := none
  rsi_14 : Option ℚ := none
  stoch_k : Option ℚ := none
  stoch_d : Option ℚ := none
  bb_upper : Option ℚ := none
  bb_middle : Option ℚ := none
  bb_lower : Option ℚ := none
  bb_width : Option ℚ := none
  atr_14 : Option ℚ := none
  adx_14 : Option ℚ := none
  plus_di : Option ℚ := none
  minus_di : Option ℚ := none
  volume_sma_20 : Option ℚ := none
  volume_sma_50 : Option ℚ := none
  obv : Option ℚ := none
  obv_sma : Option ℚ := none
  relative_strength : Option ℚ := none
deriving DecidableEq, Repr

/-- Python truthiness of the indicator dict (`if ... not indicators:` in
`CompositeStrategy._calculate_technical_score`): the dict built by
`_indicators_to_dict` is empty exactly when every model field is `None`. -/
def Indicators.isEmpty (i : Indicators) : Bool :=
  i.sma_10 = none ∧ i.sma_20 = none ∧ i.sma_50 = none ∧ i.sma_150 = none ∧
  i.sma_200 = none ∧ i.ema_8 = none ∧ i.ema_21 = none ∧ i.macd = none ∧
  i.macd_signal = none ∧ i.macd_histogram = none ∧ i.rsi_14 = none ∧
  i.stoch_k = none ∧ i.stoch_d = none ∧ i.bb_upper = none ∧
  i.bb_middle = none ∧ i.bb_lower = none ∧ i.bb_width = none ∧
  i.atr_14 = none ∧ i.adx_14 = none ∧ i.plus_di = none ∧ i.minus_di = none ∧
  i.volume_sma_20 = none ∧ i.volume_sma_50 = none ∧ i.obv = none ∧
  i.obv_sma = none ∧ i.relative_strength = none

/-- The all-`none` indicator mapping (an empty `indicator_dict`). -/
def emptyIndicators : Indicators := {}

/-- Embeds `StrategyResult` (strategies/base.py:12-20).  Factor strings are kept
verbatim where constant; messages with interpolated numbers are elided from
the embedding (see the header comment), so in the sufficient-data branches
the three lists are modelled as `[]`. -/
structure StrategyResult where
  score : ℚ
  bullishFactors : List String
  bearishFactors : List String
  warnings : List String
  signal : String
  conviction : String
deriving DecidableEq, Repr

/-- Embeds `BaseStrategy._get_signal_from_score` (strategies/base.py:42-57). -/
def getSignalFromScore (score : ℚ) : String × String :=
  if 80 ≤ score then ("BUY", "HIGH")
  else if 65 ≤ score then ("BUY", "MEDIUM")
  else if 50 ≤ score then ("HOLD", "LOW")
  else if 35 ≤ score then ("AVOID", "MEDIUM")
  else ("SELL", "HIGH")

/-- Embeds `series.pct_change(k)`: entry `i` is `x_i / x_{i-k} - 1` for `i ≥ k` and
NaN before. -/
def pctChange (xs : List ℚ) (k : ℕ) : List (Option ℚ) :=
  (List.range xs.length).map fun i =>
    if k ≤ i ∧ 0 < k then some ((xs.getD i 0 - xs.getD (i - k) 0) / xs.getD (i - k) 0)
    else none

/-- Embeds `series.rolling(window=w).mean().iloc[-k]` under a guard that makes the
window complete: the mean of the `w` entries ending at index `len - k`. -/
def rollMeanAt (xs : List ℚ) (w k : ℕ) : ℚ :=
  listMean (tailN (xs.take (xs.length + 1 - k)) w)

/-- Sample variance with `ddof = 1` (the pandas `std()` default), used to
model `returns.std()`: comparisons of the annualized volatility
`std * 100 * sqrt(252)` against a bound `B` are modelled by comparing
`var * 10000 * 252` against `B^2`, an exact monotone transformation since
both sides are nonnegative. -/
def sampleVar (xs : List ℚ) : ℚ :=
  let m := listMean xs
  (xs.map fun x => (x - m) ^ 2).sum / ((xs.length : ℚ) - 1)

/-- Consecutive triples `(x_{i-1}, x_i, x_{i+1})` of a series, for the
pivot-style loops `for i in range(1, len - 1)`. -/
def triples (xs : List ℚ) : List (ℚ × ℚ × ℚ) :=
  xs.zip ((xs.drop 1).zip (xs.drop 2))

/-- Peak values: entries strictly greater than both neighbours
(`WeinsteinStrategy._check_higher_highs` and friends,
weinstein.py:337-404). -/
def peakValues (xs : List ℚ) : List ℚ :=
  (triples xs).filterMap fun t =>
    if t.1 < t.2.1 ∧ t.2.2 < t.2.1 then some t.2.1 else none

/-- Trough values: entries strictly smaller than both neighbours. -/
def troughValues (xs : List ℚ) : List ℚ :=
  (triples xs).filterMap fun t =>
    if t.2.1 < t.1 ∧ t.2.1 < t.2.2 then some t.2.1 else none

/-- Embeds `WeinsteinStrategy._check_higher_highs(df, lookback)`
(weinstein.py:337-353): at least two peaks in the trailing window, strictly
ascending. -/
def checkHigherHighs (bars : List Bar) (lookback : ℕ) : Bool :=
  if bars.length < lookback then false
  else
    let p := peakValues (tailN (highs bars) lookback)
    2 ≤ p.length ∧ List.Chain' (· < ·) p

/-- Embeds `WeinsteinStrategy._check_higher_lows` (weinstein.py:355-370). -/
def checkHigherLows (bars : List Bar) (lookback : ℕ) : Bool :=
  if bars.length < lookback then false
  else
    let p := troughValues (tailN (lows bars) lookback)
    2 ≤ p.length ∧ List.Chain' (· < ·) p

/-- Embeds `WeinsteinStrategy._check_lower_lows` (weinstein.py:372-387). -/
def checkLowerLows (bars : List Bar) (lookback : ℕ) : Bool :=
  if bars.length < lookback then false
  else
    let p := troughValues (tailN (lows bars) lookback)
    2 ≤ p.length ∧ List.Chain' (· > ·) p

/-- Embeds `WeinsteinStrategy._check_lower_highs` (weinstein.py:389-404). -/
def checkLowerHighs (bars : List Bar) (lookback : ℕ) : Bool :=
  if bars.length < lookback then false
  else
    let p := peakValues (tailN (highs bars) lookback)
    2 ≤ p.length ∧ List.Chain' (· > ·) p

/-!
Stage classification

`WeinsteinStrategy._determine_stage` (strategies/weinstein.py:90-149) and
`TrendAnalyzer.determine_weinstein_stage` (analysis/trend_analysis.py:125-197)
are two *separate* classifiers.  Both are embedded at stage granularity: the
higher-high / lower-low pattern checks of the sources only select between two
description strings for the *same* stage value and never change the returned
stage, so they do not appear in the stage-valued embedding.
-/

/-- Embeds `_calculate_slope(series, lookback)`: identical code in
`WeinsteinStrategy._calculate_slope` (weinstein.py:320-335) and
`TrendAnalyzer._calculate_slope` (trend_analysis.py:199-215).  NaN entries
are dropped (`dropna`) after taking the trailing `lookback` rows. -/
def calculateSlope (series : List (Option ℚ)) (lookback : ℕ) : ℚ :=
  if series.length < lookback then 0
  else
    let recent := dropna (tailN series lookback)
    if recent.length < 2 then 0
    else
      let start := recent.headD 0
      let last := lastD recent
      if start = 0 then 0 else (last - start) / start

/-- Embeds `WeinsteinStrategy._determine_stage` (weinstein.py:90-149), stage value
only.  The 150-bar MA (`WEEKLY_MA_PERIOD`), its slope over the trailing
**50** rows, and a **0.02** deadband; the flat branch compares the price and
MA `lookback` rows ago (NaN MA entries compare `False`, yielding the
"up"-prior branch, Stage 3). -/
def weinsteinStrategyStage (bars : List Bar) : WStage :=
  let close := closes bars
  let currentPrice := lastD close
  let weeklyMa := rollingMean close 150
  let currentMa : Option ℚ := (ilocNeg weeklyMa 1).join
  let maSlope := calculateSlope weeklyMa 50
  let priceAboveMa := qGtOpt currentPrice currentMa
  let lookback := min 100 (bars.length - 1)
  if 2 / 100 < maSlope ∧ priceAboveMa = true then WStage.stage2
  else if maSlope < -(2 / 100) ∧ priceAboveMa = false then WStage.stage4
  else if |maSlope| ≤ 2 / 100 then
    let priorPrice :=
      if lookback < close.length then ilocNegD close lookback 0 else currentPrice
    let priorMa : Option ℚ :=
      if lookback < weeklyMa.length then (ilocNeg weeklyMa lookback).join
      else currentMa
    if qLtOpt priorPrice priorMa = true then WStage.stage1 else WStage.stage3
  else if priceAboveMa = true then WStage.stage1
  else WStage.stage3

/-- Embeds `TrendAnalyzer.determine_weinstein_stage`
(trend_analysis.py:125-197), stage value only.  Requires 200 bars (else
Stage 1 with an insufficient-data description); 150-bar MA, slope over the
trailing **150** rows, **0.01** deadband; the flat branch classifies by
whether the price crossed the MA over the window. -/
def determineWeinsteinStage (bars : List Bar) : WStage :=
  if bars.length < 200 then WStage.stage1
  else
    let close := closes bars
    let currentPrice := lastD close
    let weeklyMa := rollingMean close 150
    let currentWeeklyMa : Option ℚ :=
      if weeklyMa.isEmpty then some currentPrice else (ilocNeg weeklyMa 1).join
    let maSlope := calculateSlope weeklyMa 150
    let priceAboveMa := qGtOpt currentPrice currentWeeklyMa
    let lookback := min 100 (bars.length - 1)
    if priceAboveMa = true ∧ 1 / 100 < maSlope then WStage.stage2
    else if priceAboveMa = false ∧ maSlope < -(1 / 100) then WStage.stage4
    else if |maSlope| ≤ 1 / 100 then
      let priorMa : Option ℚ :=
        if lookback < weeklyMa.length then (ilocNeg weeklyMa lookback).join
        else currentWeeklyMa
      let priorPrice :=
        if lookback < close.length then ilocNegD close lookback 0 else currentPrice
      if qLtOpt priorPrice priorMa = true ∧ priceAboveMa = true then WStage.stage1
      else if qGtOpt priorPrice priorMa = true ∧ priceAboveMa = false then WStage.stage3
      else WStage.stage1
    else WStage.stage1

/-!
Minervini SEPA scorer (`backend/app/strategies/minervini.py`)
-/

/-- One swing point found by `MinerviniStrategy._find_swings`
(minervini.py:340-359): type (`true` = swing high), index, value. -/
structure Swing where
  isHigh : Bool
  idx : ℕ
  value : ℚ
deriving DecidableEq, Repr

/-- Embeds `MinerviniStrategy._find_swings(df, window)` (minervini.py:340-359): a
swing high at `i` has `high[i] >= high[i ± j]` for `j = 1 … window` (ties
inclusive), symmetrically for lows; boundary indices are never swings.  The
source appends the high entry before the low entry for the same `i` and
finally sorts by index (a stable no-op given that construction), which the
flat-map below reproduces. -/
def findSwings (bars : List Bar) (window : ℕ) : List Swing :=
  let hs := highs bars
  let ls := lows bars
  (List.range bars.length).flatMap fun i =>
    if window ≤ i ∧ i + window < bars.length then
      let hi := hs.getD i 0
      let lo := ls.getD i 0
      (if (List.range window).all
            (fun j => hs.getD (i - (j + 1)) 0 ≤ hi ∧ hs.getD (i + (j + 1)) 0 ≤ hi)
        then [⟨true, i, hi⟩] else []) ++
      (if (List.range window).all
            (fun j => lo ≤ ls.getD (i - (j + 1)) 0 ∧ lo ≤ ls.getD (i + (j + 1)) 0)
        then [⟨false, i, lo⟩] else [])
    else []

/-- Pairs `(pivots[i], pivots[i+1])` for `i = 0, 2, 4, …` with `i + 1 < len`
(the stride-2 loop of `_score_vcp`, minervini.py:179-186). -/
def evenPairs : List α → List (α × α)
  | a :: b :: rest => (a, b) :: evenPairs rest
  | _ => []

/-- The contraction percentages of `_score_vcp` (minervini.py:177-186): for
each stride-2 pivot pair, `pivot_high` is the value of the first member if
it is a swing high else of the second, `pivot_low` symmetrically, and the
pair contributes `(high - low) / high * 100` when `high > low`. -/
def vcpContractions (pivots : List Swing) : List ℚ :=
  (evenPairs pivots).filterMap fun p =>
    let pivotHigh := if p.1.isHigh then p.1.value else p.2.value
    let pivotLow := if p.1.isHigh = false then p.1.value else p.2.value
    if pivotLow < pivotHigh then some ((pivotHigh - pivotLow) / pivotHigh * 100)
    else none

/-- Embeds `MinerviniStrategy._score_setup` (minervini.py:73-149), 0-25 points:
MA-stack ordering (`+10/+7/+3/−5`), 150/200-MA 20-bar slopes (`+3/+2`),
52-week range position (`+3/+4`), simplified Stage-2 check (`+3`); clamped
by `max(0, min(25, score))`. -/
def minerviniScoreSetup (bars : List Bar) (ind : Indicators) : ℚ :=
  let close := closes bars
  let currentPrice := lastD close
  let v50 := ind.sma_50.getD 0
  let v150 := ind.sma_150.getD 0
  let v200 := ind.sma_200.getD 0
  let maPart : ℚ :=
    if truthy ind.sma_50 ∧ truthy ind.sma_150 ∧ truthy ind.sma_200 then
      let chain : ℚ :=
        if v200 < v150 ∧ v150 < v50 ∧ v50 < currentPrice then 10
        else if v150 < v50 ∧ v50 < currentPrice then 7
        else if v50 < currentPrice then 3
        else -5
      let slopes : ℚ :=
        if 200 ≤ close.length then
          let s150 := (rollMeanAt close 150 1 - rollMeanAt close 150 20) /
            rollMeanAt close 150 20
          let s200 := (rollMeanAt close 200 1 - rollMeanAt close 200 20) /
            rollMeanAt close 200 20
          (if 0 < s150 then 3 else 0) + (if 0 < s200 then 2 else 0)
        else 0
      chain + slopes
    else 0
  let yearHigh := if 252 ≤ close.length then listMax (tailN close 252) else listMax close
  let yearLow := if 252 ≤ close.length then listMin (tailN close 252) else listMin close
  let pctFromLow := (currentPrice - yearLow) / yearLow * 100
  let pctFromHigh := (yearHigh - currentPrice) / yearHigh * 100
  let p1 : ℚ := if 30 ≤ pctFromLow then 3 else 0
  let p2 : ℚ := if pctFromHigh ≤ 25 then 4 else 0
  let p3 : ℚ := if truthy ind.sma_50 ∧ v50 < currentPrice then 3 else 0
  max 0 (min 25 (maPart + p1 + p2 + p3))

/-- Embeds `MinerviniStrategy._score_vcp` (minervini.py:151-210), 0-25 points:
pivot pairs on the trailing 100 bars, `+15 + min(10, 3·count)` for strictly
contracting waves, else `+8` for tight (`avg < 15`) or `+3`; `min(25, ·)`. -/
def minerviniScoreVcp (bars : List Bar) : ℚ :=
  if bars.length < 100 then 0
  else
    let lookback := min 100 bars.length
    let data := tailN bars lookback
    let pivots := findSwings data 5
    if pivots.length < 3 then 0
    else
      let contractions := vcpContractions pivots
      if contractions = [] then 0
      else
        let isContracting :=
          2 ≤ contractions.length ∧ List.Chain' (· > ·) contractions
        if isContracting then
          min 25 ((15 : ℚ) + min 10 ((contractions.length : ℚ) * 3))
        else
          let avgContraction := listMean contractions
          if avgContraction < 15 then min 25 (8 : ℚ) else min 25 (3 : ℚ)

/-- Embeds `MinerviniStrategy._score_volume` (minervini.py:212-263), 0-20 points:
current volume (int-truncated, as `int(volume.iloc[-1])`) against the
20-bar volume SMA and up-day/down-day volume comparison on the trailing 20
bars; clamped by `max(0, min(20, ·))`. -/
def minerviniScoreVolume (bars : List Bar) (ind : Indicators) : ℚ :=
  let vol := volumes bars
  let currentVol : ℚ := ((⌊lastD vol⌋ : ℤ) : ℚ)
  let s1 : ℚ :=
    if truthy ind.volume_sma_20 then
      let volRel := currentVol / ind.volume_sma_20.getD 0
      if 3 / 2 < volRel then 8
      else if 1 < volRel then 5
      else if volRel < 1 / 2 then 5
      else 2
    else 0
  let recent := tailN bars 20
  let upDays := recent.filter fun b => b.openPrice < b.close
  let downDays := recent.filter fun b => b.close < b.openPrice
  let s2 : ℚ :=
    if upDays ≠ [] ∧ downDays ≠ [] then
      let upVol := listMean (volumes upDays)
      let downVol := listMean (volumes downDays)
      if downVol * (13 / 10) < upVol then 7
      else if upVol * (13 / 10) < downVol then -5
      else 0
    else 0
  max 0 (min 20 (s1 + s2))

/-- Embeds `MinerviniStrategy._score_relative_strength` (minervini.py:265-297),
0-15 points: the `relative_strength` indicator, or the 50-bar price change
fallback `1 + (close[-1]/close[-50] - 1)` when absent; `min(15, ·)`. -/
def minerviniScoreRelativeStrength (bars : List Bar) (ind : Indicators) : ℚ :=
  let close := closes bars
  let rs : Option ℚ :=
    match ind.relative_strength with
    | some v => some v
    | none =>
      if 50 ≤ bars.length then
        some (1 + (lastD close / ilocNegD close 50 0 - 1))
      else none
  match rs with
  | none => min 15 (0 : ℚ)
  | some r =>
    if 12 / 10 < r then min 15 (15 : ℚ)
    else if 1 < r then min 15 (10 : ℚ)
    else if 9 / 10 < r then min 15 (5 : ℚ)
    else min 15 (0 : ℚ)

/-- Embeds `MinerviniStrategy._score_market_alignment` (minervini.py:299-338),
0-15 points: ADX/DI and MACD alignment; `max(0, min(15, ·))`. -/
def minerviniScoreMarketAlignment (ind : Indicators) : ℚ :=
  let s1 : ℚ :=
    match ind.adx_14 with
    | some adx =>
      if 25 < adx then
        5 + (if truthy ind.plus_di ∧ truthy ind.minus_di ∧
              ind.minus_di.getD 0 < ind.plus_di.getD 0 then 5
          else if truthy ind.plus_di ∧ truthy ind.minus_di ∧
              ind.plus_di.getD 0 < ind.minus_di.getD 0 then -3
          else 0)
      else 2
    | none => 0
  let s2 : ℚ :=
    if ind.macd ≠ none ∧ ind.macd_signal ≠ none then
      if ind.macd_signal.getD 0 < ind.macd.getD 0 ∧ 0 < ind.macd.getD 0 then 5
      else if ind.macd.getD 0 < ind.macd_signal.getD 0 ∧ ind.macd.getD 0 < 0 then -3
      else 0
    else 0
  max 0 (min 15 (s1 + s2))

/-- The insufficient-data result of `MinerviniStrategy.analyze`
(minervini.py:38-46), returned verbatim for fewer than 200 bars. -/
def minerviniInsufficient : StrategyResult :=
  { score := 0
    bullishFactors := []
    bearishFactors := ["Insufficient data"]
    warnings := ["Need at least 200 bars of data"]
    signal := "AVOID"
    conviction := "LOW" }

/-- Embeds `MinerviniStrategy.analyze` (minervini.py:27-71): 200-bar gate, then the
sum of the five sub-scores with signal/conviction from the shared table. -/
def minerviniAnalyze (bars : List Bar) (ind : Indicators) : StrategyResult :=
  if bars.length < 200 then minerviniInsufficient
  else
    let total := minerviniScoreSetup bars ind + minerviniScoreVcp bars +
      minerviniScoreVolume bars ind + minerviniScoreRelativeStrength bars ind +
      minerviniScoreMarketAlignment ind
    let sc := getSignalFromScore total
    { score := total
      bullishFactors := []
      bearishFactors := []
      warnings := []
      signal := sc.1
      conviction := sc.2 }

/-!
Weinstein stage scorer (`backend/app/strategies/weinstein.py`)
-/

/-- Embeds `WeinsteinStrategy._score_stage` (weinstein.py:151-177): the fixed
stage → points table {2: 40, 1: 25, 3: 15, 4: 0}. -/
def weinsteinScoreStage (stage : WStage) : ℚ :=
  match stage with
  | WStage.stage2 => 40
  | WStage.stage1 => 25
  | WStage.stage3 => 15
  | WStage.stage4 => 0

/-- Embeds `WeinsteinStrategy._score_ma_relationship` (weinstein.py:179-230),
0-25 points: price vs 150-bar MA (`+10`), 20-row slope of the 150-bar MA
(`+10/+7/+3`), distance from the MA (`+5/−3`); `max(0, min(25, ·))`. -/
def weinsteinScoreMaRelationship (bars : List Bar) (ind : Indicators) : ℚ :=
  let close := closes bars
  let currentPrice := lastD close
  let v150 := ind.sma_150.getD 0
  let s1 : ℚ :=
    if truthy ind.sma_150 ∧ v150 < currentPrice then 10 else 0
  let s2 : ℚ :=
    if 150 ≤ close.length then
      let slope := calculateSlope (rollingMean close 150) 20
      if 2 / 100 < slope then 10
      else if 0 < slope then 7
      else if slope < -(2 / 100) then 0
      else 3
    else 0
  let s3 : ℚ :=
    if truthy ind.sma_150 ∧ v150 < currentPrice then
      let distance := (currentPrice - v150) / v150 * 100
      if distance < 30 then 5 else if 50 < distance then -3 else 0
    else 0
  max 0 (min 25 (s1 + s2 + s3))

/-- Embeds `WeinsteinStrategy._score_price_action` (weinstein.py:232-273),
0-20 points: higher-highs/higher-lows vs lower-lows/lower-highs over 30
bars, proximity to the 20-bar high, support at the 50-bar MA;
`min(20, ·)` (every contribution is nonnegative). -/
def weinsteinScorePriceAction (bars : List Bar) (ind : Indicators) : ℚ :=
  if bars.length < 50 then 0
  else
    let close := closes bars
    let s1 : ℚ :=
      if checkHigherHighs bars 30 ∧ checkHigherLows bars 30 then 10
      else if checkLowerLows bars 30 ∧ checkLowerHighs bars 30 then 0
      else 3
    let recentHigh := listMax (tailN (highs bars) 20)
    let s2 : ℚ := if recentHigh * (98 / 100) ≤ lastD close then 5 else 0
    let s3 : ℚ :=
      if truthy ind.sma_50 then
        let v50 := ind.sma_50.getD 0
        let recentLow := listMin (tailN (lows bars) 10)
        if |recentLow - v50| / v50 < 2 / 100 then 5 else 0
      else 0
    min 20 (s1 + s2 + s3)

/-- Embeds `WeinsteinStrategy._score_volume` (weinstein.py:275-318), 0-15 points:
20- vs 50-bar volume SMA (`+7/+2`) and up-day vs down-day volume on the
trailing 20 bars (`+8/+4`); `min(15, ·)`. -/
def weinsteinScoreVolume (bars : List Bar) : ℚ :=
  let vol := volumes bars
  let s1 : ℚ :=
    if 50 ≤ vol.length then
      if rollMeanAt vol 50 1 < rollMeanAt vol 20 1 then 7 else 2
    else 0
  let recent := tailN bars 20
  let upDays := recent.filter fun b => b.openPrice < b.close
  let downDays := recent.filter fun b => b.close < b.openPrice
  let s2 : ℚ :=
    if upDays ≠ [] ∧ downDays ≠ [] then
      let upVolAvg := listMean (volumes upDays)
      let downVolAvg := listMean (volumes downDays)
      if downVolAvg * (12 / 10) < upVolAvg then 8
      else if upVolAvg * (12 / 10) < downVolAvg then 0
      else 4
    else 0
  min 15 (s1 + s2)

/-- The insufficient-data result of `WeinsteinStrategy.analyze`
(weinstein.py:41-49), returned verbatim for fewer than 150 bars. -/
def weinsteinInsufficient : StrategyResult :=
  { score := 0
    bullishFactors := []
    bearishFactors := ["Insufficient data"]
    warnings := ["Need at least 150 bars for stage analysis"]
    signal := "AVOID"
    conviction := "LOW" }

/-- Embeds `WeinsteinStrategy.analyze` (weinstein.py:31-88): 150-bar gate, the
stage from its **own** `_determine_stage`, then
Stage(40) + MARelationship(25) + PriceAction(20) + Volume(15). -/
def weinsteinAnalyze (bars : List Bar) (ind : Indicators) : StrategyResult :=
  if bars.length < 150 then weinsteinInsufficient
  else
    let stage := weinsteinStrategyStage bars
    let total := weinsteinScoreStage stage +
      weinsteinScoreMaRelationship bars ind +
      weinsteinScorePriceAction bars ind + weinsteinScoreVolume bars
    let sc := getSignalFromScore total
    { score := total
      bullishFactors := []
      bearishFactors := []
      warnings := []
      signal := sc.1
      conviction := sc.2 }

/-!
Lynch scorer (`backend/app/strategies/lynch.py`)

The source file is a purely technical adaptation: `analyze(df, indicators)`
takes no fundamental data at all (its module docstring says the full
implementation "would require fundamental data ... not readily available"),
gates on **100** bars, and sums five technical sub-scores.  The separate
`FundamentalScorer` service (`backend/app/services/fundamental_scorer.py`)
is imported only by the stocks API route, never by any strategy.
-/

/-- Embeds `LynchStrategy._score_trend_consistency` (lynch.py:73-127), 0-30 points:
200-bar MA direction over 100 bars (NaN comparisons are `False`), count of
positive 20-bar returns over the last 6, price above the `sma_200`
indicator; `min(30, ·)`. -/
def lynchScoreTrendConsistency (bars : List Bar) (ind : Indicators) : ℚ :=
  if bars.length < 100 then 0
  else
    let close := closes bars
    let sma200Series := rollingMean close 200
    let s1 : ℚ :=
      if sma200Series.length ≠ 0 then
        let currentSma200 : Option ℚ := (ilocNeg sma200Series 1).join
        let sma200Ago : Option ℚ :=
          if 100 < sma200Series.length then (ilocNeg sma200Series 100).join
          else currentSma200
        if qGtOptOpt currentSma200 sma200Ago then 15 else 0
      else 0
    let monthlyReturns := dropna (pctChange close 20)
    let s2 : ℚ :=
      if 6 ≤ monthlyReturns.length then
        let positiveMonths := ((tailN monthlyReturns 6).filter fun r => 0 < r).length
        if 5 ≤ positiveMonths then 10
        else if 4 ≤ positiveMonths then 6
        else 0
      else 0
    let s3 : ℚ :=
      if truthy ind.sma_200 ∧ ind.sma_200.getD 0 < lastD close then 5 else 0
    min 30 (s1 + s2 + s3)

/-- Embeds `LynchStrategy._score_pullback_quality` (lynch.py:129-186), 0-25 points:
distance to the 50-bar MA (`+12/+8`), 200-bar MA support (`+8`), healthy
pullback depth from the 30-bar high (`+5`); `min(25, ·)`. -/
def lynchScorePullbackQuality (bars : List Bar) (ind : Indicators) : ℚ :=
  let close := closes bars
  let currentPrice := lastD close
  let s1 : ℚ :=
    if truthy ind.sma_50 then
      let v50 := ind.sma_50.getD 0
      let distance50 := |currentPrice - v50| / v50 * 100
      if distance50 < 3 then 12 else if distance50 < 5 then 8 else 0
    else 0
  let s2 : ℚ :=
    if truthy ind.sma_200 then
      let v200 := ind.sma_200.getD 0
      let distance200 := |currentPrice - v200| / v200 * 100
      if distance200 < 5 ∧ v200 < currentPrice then 8 else 0
    else 0
  let s3 : ℚ :=
    if 30 ≤ close.length then
      let recentHigh := listMax (tailN close 30)
      let pullbackPct := (recentHigh - currentPrice) / recentHigh * 100
      if 5 < pullbackPct ∧ pullbackPct < 15 then 5 else 0
    else 0
  min 25 (s1 + s2 + s3)

/-- Embeds `LynchStrategy._score_volume_patterns` (lynch.py:188-241), 0-20 points:
20- vs 50-bar volume SMA band (`+8/+5`), accumulation vs distribution on
the trailing 20 bars (`+12/+6`); `min(20, ·)`. -/
def lynchScoreVolumePatterns (bars : List Bar) (ind : Indicators) : ℚ :=
  let s1 : ℚ :=
    if truthy ind.volume_sma_20 ∧ truthy ind.volume_sma_50 then
      let volRel := ind.volume_sma_20.getD 0 / ind.volume_sma_50.getD 0
      if 9 / 10 < volRel ∧ volRel < 13 / 10 then 8
      else if volRel < 7 / 10 then 0
      else if 3 / 2 < volRel then 5
      else 0
    else 0
  let recent := tailN bars 20
  let upDays := recent.filter fun b => b.openPrice < b.close
  let downDays := recent.filter fun b => b.close < b.openPrice
  let s2 : ℚ :=
    if upDays ≠ [] ∧ downDays ≠ [] then
      let upVol := listMean (volumes upDays)
      let downVol := listMean (volumes downDays)
      if downVol * (12 / 10) < upVol then 12
      else if upVol * (12 / 10) < downVol then 0
      else 6
    else 0
  min 20 (s1 + s2)

/-- Embeds `LynchStrategy._score_momentum` (lynch.py:243-295), 0-15 points:
RSI zone (`+6/+3`), MACD cross (`+5/+3`), Stochastic zone (`+4`);
`min(15, ·)`. -/
def lynchScoreMomentum (ind : Indicators) : ℚ :=
  let s1 : ℚ :=
    match ind.rsi_14 with
    | some rsi =>
      if 40 < rsi ∧ rsi < 70 then 6
      else if 70 ≤ rsi then 0
      else if rsi ≤ 30 then 0
      else 3
    | none => 0
  let s2 : ℚ :=
    if ind.macd ≠ none ∧ ind.macd_signal ≠ none then
      let m := ind.macd.getD 0
      let ms := ind.macd_signal.getD 0
      if ms < m ∧ 0 < m then 5
      else if ms < m then 3
      else 0
    else 0
  let s3 : ℚ :=
    match ind.stoch_k with
    | some k => if 20 < k ∧ k < 80 then 4 else 0
    | none => 0
  min 15 (s1 + s2 + s3)

/-- Embeds `LynchStrategy._score_volatility` (lynch.py:297-343), 0-10 points:
annualized volatility of the trailing 20 returns (compared through its
square, see `sampleVar`) and ATR as a percent of price (`+5/−2`);
`max(0, min(10, ·))`. -/
def lynchScoreVolatility (bars : List Bar) (ind : Indicators) : ℚ :=
  let close := closes bars
  let returns := dropna (pctChange close 1)
  let s1 : ℚ :=
    if 20 ≤ returns.length then
      let annVolSq := sampleVar (tailN returns 20) * 10000 * 252
      if annVolSq < 625 then 10
      else if annVolSq < 1225 then 7
      else if 2500 < annVolSq then 2
      else 4
    else 0
  let s2 : ℚ :=
    match ind.atr_14 with
    | some atr =>
      let currentPrice := lastD close
      let atrPct := atr / currentPrice * 100
      if atrPct < 2 then 5 else if 4 < atrPct then -2 else 0
    | none => 0
  max 0 (min 10 (s1 + s2))

/-- The insufficient-data result of `LynchStrategy.analyze` (lynch.py:39-47),
returned verbatim for fewer than 100 bars. -/
def lynchInsufficient : StrategyResult :=
  { score := 0
    bullishFactors := []
    bearishFactors := ["Insufficient data"]
    warnings := ["Need at least 100 bars for analysis"]
    signal := "AVOID"
    conviction := "LOW" }

/-- Embeds `LynchStrategy.analyze` (lynch.py:37-71): **100**-bar gate, then the sum
of the five technical sub-scores; no fundamental-data input exists. -/
def lynchAnalyze (bars : List Bar) (ind : Indicators) : StrategyResult :=
  if bars.length < 100 then lynchInsufficient
  else
    let total := lynchScoreTrendConsistency bars ind +
      lynchScorePullbackQuality bars ind + lynchScoreVolumePatterns bars ind +
      lynchScoreMomentum ind + lynchScoreVolatility bars ind
    let sc := getSignalFromScore total
    { score := total
      bullishFactors := []
      bearishFactors := []
      warnings := []
      signal := sc.1
      conviction := sc.2 }

/-!
Composite strategy (`backend/app/strategies/composite.py`)
-/

/-- Model of `round(x, 1)` on the reported scores (composite.py:89-95): rounding to
one decimal (see the header comment on the rounding model). -/
def round1 (x : ℚ) : ℚ := ((round (10 * x) : ℤ) : ℚ) / 10

/-- Model of `round(x, 2)` on the reported trade prices (analyzer.py:286-307). -/
def round2 (x : ℚ) : ℚ := ((round (100 * x) : ℤ) : ℚ) / 100

/-- Embeds `StrategyScores` (models/analysis.py): the reported, 1-decimal-rounded
score block. -/
structure StrategyScores where
  minervini_score : ℚ
  weinstein_score : ℚ
  lynch_score : ℚ
  technical_score : ℚ
  composite_score : ℚ
deriving DecidableEq, Repr

/-- Embeds `CompositeResult` (composite.py:15-24), restricted to the fields claims
depend on; the labelled factor lists (interpolated strings) are elided. -/
structure CompositeResult where
  scores : StrategyScores
  signal : SignalType
  conviction : ConvictionLevel
deriving DecidableEq, Repr

/-- Embeds `CompositeStrategy._calculate_technical_score` (composite.py:159-232):
base 50, MA alignment (`+5` each), RSI zone (`+5/−3/+3`), MACD cross
(`+5/−5`), Stochastic zone (`+5`), ADX/DI (`+10/−5`), Bollinger position
(`+3/−3/+3`); clamped to [0, 100].  All indicator tests are Python
truthiness tests (`if rsi:` etc.). -/
def calcTechnicalScore (bars : List Bar) (ind : Indicators) : ℚ :=
  if bars.length = 0 ∨ ind.isEmpty = true then 0
  else
    let currentPrice := lastD (closes bars)
    let v20 := ind.sma_20.getD 0
    let v50 := ind.sma_50.getD 0
    let v200 := ind.sma_200.getD 0
    let sMa : ℚ :=
      (if truthy ind.sma_20 ∧ v20 < currentPrice then 5 else 0) +
      (if truthy ind.sma_50 ∧ v50 < currentPrice then 5 else 0) +
      (if truthy ind.sma_200 ∧ v200 < currentPrice then 5 else 0) +
      (if truthy ind.sma_20 ∧ truthy ind.sma_50 ∧ v50 < v20 then 5 else 0)
    let sRsi : ℚ :=
      if truthy ind.rsi_14 then
        let r := ind.rsi_14.getD 0
        if 40 < r ∧ r < 70 then 5
        else if 70 < r then -3
        else if r < 30 then 3
        else 0
      else 0
    let sMacd : ℚ :=
      if truthy ind.macd ∧ truthy ind.macd_signal then
        if ind.macd_signal.getD 0 < ind.macd.getD 0 then 5 else -5
      else 0
    let sStoch : ℚ :=
      if truthy ind.stoch_k then
        let k := ind.stoch_k.getD 0
        if 20 < k ∧ k < 80 then 5 else 0
      else 0
    let sAdx : ℚ :=
      if truthy ind.adx_14 then
        if 25 < ind.adx_14.getD 0 then
          if truthy ind.plus_di ∧ truthy ind.minus_di then
            if ind.minus_di.getD 0 < ind.plus_di.getD 0 then 10 else -5
          else 0
        else 0
      else 0
    let sBb : ℚ :=
      if truthy ind.bb_upper ∧ truthy ind.bb_lower then
        let u := ind.bb_upper.getD 0
        let l := ind.bb_lower.getD 0
        let bbMid := (u + l) / 2
        (if bbMid < currentPrice then 3 else 0) +
        (if u < currentPrice then -3 else if currentPrice < l then 3 else 0)
      else 0
    max 0 (min 100 (50 + sMa + sRsi + sMacd + sStoch + sAdx + sBb))

/-- Model of `scores.lynch_score or 50` (composite.py:244): Python `or` replaces both
`None` and `0.0` by 50; the score field is always a float here, so exactly
the value `0` is replaced. -/
def lynchOr50 (l : ℚ) : ℚ := if l = 0 then 50 else l

/-- The population variance of the three strategy scores used by the
agreement test (composite.py:241-248).  The source compares
`score_std = sqrt(variance) < 15`; since both sides are nonnegative this is
equivalent to `variance < 225`, which is how the decidable embedding states
it. -/
def scoreVariance (m w l : ℚ) : ℚ :=
  let l50 := lynchOr50 l
  let avg := (m + w + l50) / 3
  ((m - avg) ^ 2 + (w - avg) ^ 2 + (l50 - avg) ^ 2) / 3

/-- The agreement test `score_std < 15` (composite.py:251). -/
def agreement (m w l : ℚ) : Bool := scoreVariance m w l < 225

/-- Embeds `CompositeStrategy._determine_signal(composite_score, scores)`
(composite.py:234-275): BUY/HOLD/HOLD/AVOID bands at 70/50/35 and
conviction from the extreme bands (≥85, <25) plus agreement. -/
def determineSignal (compositeScore : ℚ) (scores : StrategyScores) :
    SignalType × ConvictionLevel :=
  let agree := agreement scores.minervini_score scores.weinstein_score
    scores.lynch_score
  if 70 ≤ compositeScore then
    (SignalType.BUY,
      if 85 ≤ compositeScore ∧ agree = true then ConvictionLevel.HIGH
      else ConvictionLevel.MEDIUM)
  else if 50 ≤ compositeScore then (SignalType.HOLD, ConvictionLevel.LOW)
  else if 35 ≤ compositeScore then (SignalType.HOLD, ConvictionLevel.LOW)
  else
    (SignalType.AVOID,
      if compositeScore < 25 ∧ agree = true then ConvictionLevel.HIGH
      else ConvictionLevel.MEDIUM)

/-- Embeds `CompositeStrategy.analyze(df, indicators, technical_score)`
(composite.py:55-157): runs the three scorers, computes the technical score
when the optional argument is `None`, takes the weighted composite
`0.35·minervini + 0.35·weinstein + 0.15·lynch + 0.15·technical`, reports
all scores rounded to one decimal, and derives signal/conviction from the
**unrounded** composite together with the rounded score block. -/
def compositeAnalyze (bars : List Bar) (ind : Indicators)
    (technicalScore : Option ℚ) : CompositeResult :=
  let mr := minerviniAnalyze bars ind
  let wr := weinsteinAnalyze bars ind
  let lr := lynchAnalyze bars ind
  let t := technicalScore.getD (calcTechnicalScore bars ind)
  let compositeScore := mr.score * (35 / 100) + wr.score * (35 / 100) +
    lr.score * (15 / 100) + t * (15 / 100)
  let scores : StrategyScores :=
    { minervini_score := round1 mr.score
      weinstein_score := round1 wr.score
      lynch_score := round1 lr.score
      technical_score := round1 t
      composite_score := round1 compositeScore }
  let sc := determineSignal compositeScore scores
  { scores := scores
    signal := sc.1
    conviction := sc.2 }

/-!
Fundamental GARP scorer (`backend/app/services/fundamental_scorer.py`)

Only the debt-to-equity component is needed by a claim; its bucket table is
embedded exactly, returning the (clamped) score together with the warnings
it appends. -/

/-- Embeds `FundamentalScorer._score_debt_equity` (fundamental_scorer.py:330-374):
bucketed D/E thresholds 0.3/0.5/0.75/1.0/1.5/2.0/3.0 mapping to
20/18/15/10/5/0/0/0 points, a missing value scoring a neutral 5, and the
two high-leverage buckets appending a leverage warning;
`max(0, min(20, ·))`. -/
def scoreDebtEquity (debtToEquity : Option ℚ) : ℚ × List String :=
  match debtToEquity with
  | none => (5, [])
  | some de =>
    let branch : ℚ × List String :=
      if de < 3 / 10 then (20, [])
      else if de < 1 / 2 then (18, [])
      else if de < 3 / 4 then (15, [])
      else if de < 1 then (10, [])
      else if de < 3 / 2 then (5, [])
      else if de < 2 then (0, [])
      else if de < 3 then (0, ["Elevated debt levels - financial risk"])
      else (0, ["Excessive leverage - significant financial risk"])
    (max 0 (min 20 branch.1), branch.2)

/-!
Support/resistance detection (`backend/app/analysis/support_resistance.py`)

Default `SRConfig`: `lookback_period = 100`, `tolerance_pct = 1.0`,
`pivot_lookback = 5`, `volume_threshold = 1.5`.
-/

/-- The `Level` model (models/analysis.py): price, strength 1-5, touches,
type string, description. -/
structure Level where
  price : ℚ
  strength : ℕ
  touches : ℕ
  level_type : String
  description : String
deriving DecidableEq, Repr

/-- Stable insertion used to model Python's stable `sorted`/`list.sort`:
`x` is placed before the first element `y` with `le x y`, so elements
comparing equal keep their original order. -/
def insertByLe (le : α → α → Bool) (x : α) : List α → List α
  | [] => [x]
  | y :: ys => if le x y then x :: y :: ys else y :: insertByLe le x ys

/-- Stable sort by a boolean `≤`-style comparison (Python `sorted`). -/
def sortByLe (le : α → α → Bool) (xs : List α) : List α :=
  xs.foldr (insertByLe le) []

/-- Embeds `sorted(levels, key=lambda x: x.price)` (support_resistance.py:183). -/
def sortByPrice (levels : List Level) : List Level :=
  sortByLe (fun a b => decide (a.price ≤ b.price)) levels

/-- Embeds `SupportResistanceDetector._merge_cluster` (support_resistance.py:203-225):
a singleton cluster is returned unchanged; otherwise the strength-weighted
average price, summed touches, `min(5, total_strength // size + 1)` strength
and the type re-derived from the merged price vs the current price. -/
def mergeCluster (cluster : List Level) (currentPrice : ℚ) : Level :=
  match cluster with
  | [l] => l
  | _ =>
    let totalStrength := (cluster.map Level.strength).sum
    let weightedPrice :=
      (cluster.map fun l => l.price * (l.strength : ℚ)).sum / (totalStrength : ℚ)
    let totalTouches := (cluster.map Level.touches).sum
    let avgStrength := min 5 (totalStrength / cluster.length + 1)
    let levelType := if weightedPrice < currentPrice then "support" else "resistance"
    { price := weightedPrice
      strength := avgStrength
      touches := totalTouches
      level_type := levelType
      description := "Clustered level" }

/-- The loop of `_cluster_levels` (support_resistance.py:187-199): walk the
price-sorted levels keeping an open cluster whose first element is the
anchor; a level joins iff its price is within `tol` of the **anchor**, else
the cluster is merged and a new one opened. -/
def clusterLoop (tol currentPrice : ℚ) (anchor : Level) (acc : List Level) :
    List Level → List Level
  | [] => [mergeCluster (anchor :: acc) currentPrice]
  | l :: rest =>
    if |l.price - anchor.price| ≤ tol then
      clusterLoop tol currentPrice anchor (acc ++ [l]) rest
    else
      mergeCluster (anchor :: acc) currentPrice ::
        clusterLoop tol currentPrice l [] rest

/-- Embeds `SupportResistanceDetector._cluster_levels(levels, current_price)`
(support_resistance.py:177-201), parameterized by the configured
`tolerance_pct` (default 1.0): sort by price, then anchor-based clustering
with tolerance `current_price * tolerance_pct / 100`. -/
def clusterLevels (tolerancePct : ℚ) (levels : List Level)
    (currentPrice : ℚ) : List Level :=
  match sortByPrice levels with
  | [] => []
  | a :: rest =>
    clusterLoop (currentPrice * (tolerancePct / 100)) currentPrice a [] rest

/-- Embeds `SupportResistanceDetector._detect_pivot_levels(data)`
(support_resistance.py:66-94) with the default `pivot_lookback = 5`:
strength-3 levels at pivot highs (`== window max`) and pivot lows
(`== window min`) over the symmetric 11-bar window. -/
def detectPivotLevels (data : List Bar) : List Level :=
  let hs := highs data
  let ls := lows data
  (List.range data.length).flatMap fun i =>
    if 5 ≤ i ∧ i + 5 < data.length then
      let windowHighs := (hs.drop (i - 5)).take 11
      let windowLows := (ls.drop (i - 5)).take 11
      (if hs.getD i 0 = listMax windowHighs then
        [{ price := hs.getD i 0, strength := 3, touches := 1,
           level_type := "resistance", description := "Pivot high resistance" }]
      else []) ++
      (if ls.getD i 0 = listMin windowLows then
        [{ price := ls.getD i 0, strength := 3, touches := 1,
           level_type := "support", description := "Pivot low support" }]
      else [])
    else []

/-- Embeds `SupportResistanceDetector._detect_volume_levels(data)`
(support_resistance.py:96-129) with the default `volume_threshold = 1.5`:
strength-4 levels at the high of bullish / the low of non-bullish candles
whose volume exceeds 1.5× the average volume. -/
def detectVolumeLevels (data : List Bar) : List Level :=
  let avgVolume := listMean (volumes data)
  let threshold := avgVolume * (3 / 2)
  (data.filter fun b => threshold < b.volume).map fun b =>
    if b.openPrice < b.close then
      { price := b.high, strength := 4, touches := 1,
        level_type := "resistance", description := "High volume resistance" }
    else
      { price := b.low, strength := 4, touches := 1,
        level_type := "support", description := "High volume support" }

/-- Embeds `SupportResistanceDetector._detect_ma_levels(df)`
(support_resistance.py:131-149): strength-2 levels at the {20,50,100,200}
moving averages, `touches = period`, and **always** `level_type="support"`
(the source comment defers reassessment to clustering, which only re-types
multi-member clusters). -/
def detectMALevels (bars : List Bar) : List Level :=
  let close := closes bars
  ([20, 50, 100, 200] : List ℕ).filterMap fun period =>
    if period ≤ close.length then
      some { price := rollMeanAt close period 1, strength := 2,
             touches := period, level_type := "support",
             description := "SMA dynamic support/resistance" }
    else none

/-- Embeds `SupportResistanceDetector._detect_psychological_levels(df)`
(support_resistance.py:151-175): strength-2 levels at the round-number
multiples of {50,100,500,1000} bracketing the current price, kept when
within ±10% of it; typed by their side of the current price. -/
def detectPsychologicalLevels (bars : List Bar) : List Level :=
  let currentPrice := lastD (closes bars)
  ([50, 100, 500, 1000] : List ℚ).flatMap fun inc =>
    let lower := ((⌊currentPrice / inc⌋ : ℤ) : ℚ) * inc
    let upper := lower + inc
    ([lower, upper]).filterMap fun levelPrice =>
      if (9 / 10) * currentPrice ≤ levelPrice ∧
          levelPrice ≤ (11 / 10) * currentPrice then
        some { price := levelPrice, strength := 2, touches := 0,
               level_type := if levelPrice < currentPrice then "support"
                 else "resistance",
               description := "Psychological level" }
      else none

/-- The key `(-strength, |current - price|)` of the final proximity/strength
sort of `detect_levels` (support_resistance.py:61-62), as a stable `≤`
comparison. -/
def levelSortLe (currentPrice : ℚ) (a b : Level) : Bool :=
  b.strength < a.strength ∨
    (a.strength = b.strength ∧ |currentPrice - a.price| ≤ |currentPrice - b.price|)

/-- Embeds `SupportResistanceDetector.detect_levels(df)`
(support_resistance.py:29-64) with the default config: gate at
`2 × pivot_lookback = 10` bars, pivot/volume levels on the trailing
100-bar slice, MA/psychological levels on the full frame, anchor-clustering
at tolerance 1%, then the support (strictly below, typed support) and
resistance (strictly above, typed resistance) lists, each sorted by
strength-then-proximity and truncated to 10. -/
def detectLevels (bars : List Bar) : List Level × List Level :=
  if bars.length < 10 then ([], [])
  else
    let lookback := min 100 bars.length
    let data := tailN bars lookback
    let allLevels := detectPivotLevels data ++ detectVolumeLevels data ++
      detectMALevels bars ++ detectPsychologicalLevels bars
    let currentPrice := lastD (closes bars)
    let clustered := clusterLevels 1 allLevels currentPrice
    let support := clustered.filter fun l =>
      l.price < currentPrice ∧ l.level_type = "support"
    let resistance := clustered.filter fun l =>
      currentPrice < l.price ∧ l.level_type = "resistance"
    ((sortByLe (levelSortLe currentPrice) support).take 10,
     (sortByLe (levelSortLe currentPrice) resistance).take 10)

/-!
Trade-suggestion synthesis (`backend/app/services/analyzer.py:187-315`)

`symbol` and `timestamp` (a `datetime.now()` call) are metadata without
analytical content and are omitted from the embedded record.
-/

/-- A detected pattern, restricted to the two fields the trade-suggestion
code reads (`patterns[0].breakout_level`, `patterns[0].pattern_name`). -/
structure PatternMatch where
  patternName : String
  breakoutLevel : Option ℚ
deriving DecidableEq, Repr

/-- A `Target` (models/trade.py): price, risk-reward multiple,
description. -/
structure Target where
  price : ℚ
  riskReward : ℚ
  description : String
deriving DecidableEq, Repr

/-- Embeds `TradeSuggestion` (models/trade.py), restricted to the analytical
fields produced by `_generate_trade_suggestion`. -/
structure TradeSuggestion where
  action : SignalType
  conviction : ConvictionLevel
  entryPrice : ℚ
  entryLow : ℚ
  entryHigh : ℚ
  entryTrigger : String
  stopLoss : ℚ
  stopLossType : String
  stopLossPct : ℚ
  riskPerShare : ℚ
  target1 : Target
  target2 : Target
  target3 : Target
  suggestedPositionPct : ℚ
  maxPositionPct : ℚ
  riskRewardMult : ℚ
  holdingPeriod : String
  strategySource : String
  reasoning : List String
  warnings : List String
deriving DecidableEq, Repr

/-- The factor lists of a composite result as read by the trade-suggestion
code (`strategy_result.bullish_factors` etc.); passed through unchanged, so
they are inputs here. -/
structure StrategyFactors where
  bullishFactors : List String
  bearishFactors : List String
  warnings : List String
deriving DecidableEq, Repr

/-- Model of `min(resistance, key=lambda x: abs(x.price - entry_price))`
(analyzer.py:257): Python's `min` returns the first minimizer on ties. -/
def nearestLevelTo (ls : List Level) (entryPrice : ℚ) : Level :=
  match ls with
  | [] => { price := 0, strength := 1, touches := 0, level_type := "",
            description := "" }
  | a :: rest =>
    rest.foldl (fun best l =>
      if |l.price - entryPrice| < |best.price - entryPrice| then l else best) a

/-- Embeds `AnalyzerService._generate_trade_suggestion`
(analyzer.py:187-315): `None` for HOLD; the fixed do-not-enter plan for
AVOID; for BUY the ATR-based entry zone, support-derived stop capped at
`entry − 1.5·ATR`, targets at risk multiples 1.5/2.5/4.0 with the second
capped to 98% of the nearest resistance when it lies strictly between entry
and the raw target, and the conviction-based position-size lookup
{HIGH: 5, MEDIUM: 3, LOW: 1.5} (default 2.0 is unreachable for the
three-valued enum). -/
def generateTradeSuggestion (bars : List Bar) (atr14 : Option ℚ)
    (patterns : List PatternMatch) (support resistance : List Level)
    (signal : SignalType) (conviction : ConvictionLevel)
    (factors : StrategyFactors) : Option TradeSuggestion :=
  let currentPrice := lastD (closes bars)
  if signal = SignalType.HOLD then none
  else if signal = SignalType.AVOID then
    some
      { action := SignalType.AVOID
        conviction := conviction
        entryPrice := currentPrice
        entryLow := currentPrice * (99 / 100)
        entryHigh := currentPrice * (101 / 100)
        entryTrigger := "Do not enter - wait for better setup"
        stopLoss := currentPrice * (105 / 100)
        stopLossType := "PERCENTAGE"
        stopLossPct := 5
        riskPerShare := currentPrice * (5 / 100)
        target1 := { price := currentPrice, riskReward := 0, description := "N/A" }
        target2 := { price := currentPrice, riskReward := 0, description := "N/A" }
        target3 := { price := currentPrice, riskReward := 0, description := "N/A" }
        suggestedPositionPct := 0
        maxPositionPct := 0
        riskRewardMult := 0
        holdingPeriod := "SWING"
        strategySource := "Composite Strategy"
        reasoning := "Current setup not favorable" :: factors.bearishFactors.take 3
        warnings := factors.warnings }
  else
    let atr := if truthy atr14 then atr14.getD 0 else currentPrice * (2 / 100)
    let entryPrice := currentPrice
    let entryLow := currentPrice - atr * (1 / 2)
    let entryHigh := currentPrice + atr * (1 / 2)
    let stopFromSupport :=
      if support ≠ [] then
        listMax ((support.take 3).map Level.price) - atr * (1 / 2)
      else currentPrice - atr * 2
    let stopLoss := min stopFromSupport (currentPrice - atr * (3 / 2))
    let riskPerShare := entryPrice - stopLoss
    let stopPct := riskPerShare / entryPrice * 100
    let target1Price := entryPrice + riskPerShare * (3 / 2)
    let target2Raw := entryPrice + riskPerShare * (5 / 2)
    let target3Price := entryPrice + riskPerShare * 4
    let target2Price :=
      if resistance ≠ [] then
        let nearest := nearestLevelTo resistance entryPrice
        if entryPrice < nearest.price ∧ nearest.price < target2Raw then
          nearest.price * (98 / 100)
        else target2Raw
      else target2Raw
    let positionPct : ℚ :=
      match conviction with
      | ConvictionLevel.HIGH => 5
      | ConvictionLevel.MEDIUM => 3
      | ConvictionLevel.LOW => 3 / 2
    let entryTrigger :=
      match patterns with
      | p :: _ =>
        match p.breakoutLevel with
        | some _ => "Buy on breakout above level"
        | none => "Current price level"
      | [] => "Current price level"
    let reasoning :=
      (match patterns with
        | p :: _ => ["Pattern: " ++ p.patternName]
        | [] => []) ++ factors.bullishFactors.take 4
    some
      { action := signal
        conviction := conviction
        entryPrice := round2 entryPrice
        entryLow := round2 entryLow
        entryHigh := round2 entryHigh
        entryTrigger := entryTrigger
        stopLoss := round2 stopLoss
        stopLossType := if support ≠ [] then "SUPPORT" else "ATR"
        stopLossPct := round2 stopPct
        riskPerShare := round2 riskPerShare
        target1 := { price := round2 target1Price, riskReward := 3 / 2,
                     description := "Conservative target" }
        target2 := { price := round2 target2Price, riskReward := 5 / 2,
                     description := "Moderate target" }
        target3 := { price := round2 target3Price, riskReward := 4,
                     description := "Aggressive target" }
        suggestedPositionPct := positionPct
        maxPositionPct := positionPct * (3 / 2)
        riskRewardMult := 2
        holdingPeriod := "SWING"
        strategySource := "Composite: Minervini + Weinstein + Lynch"
        reasoning := reasoning
        warnings := factors.warnings }

/-!
Specification-side characterization of the clustering loop

`anchorGroups` restates the grouping rule of `_cluster_levels` in isolation
(before any merging): walk the price-sorted list, adding a level to the open
group iff it is within tolerance of the group's first element (the anchor).
It exists to state the claim that `_cluster_levels` merges exactly these
anchor-based groups. -/
def anchorGroupsLoop (tol : ℚ) (anchor : Level) (acc : List Level) :
    List Level → List (List Level)
  | [] => [anchor :: acc]
  | l :: rest =>
    if |l.price - anchor.price| ≤ tol then
      anchorGroupsLoop tol anchor (acc ++ [l]) rest
    else
      (anchor :: acc) :: anchorGroupsLoop tol l [] rest

/-- The anchor-based groups of a (price-sorted) level list. -/
def anchorGroups (tol : ℚ) : List Level → List (List Level)
  | [] => []
  | a :: rest => anchorGroupsLoop tol a [] rest

end ChartAnalyzer

namespace ChartAnalyzer

/-- A strictly rising close series of sixteen bars: 1, 2, …, 16. -/
def risingCloses : List ℚ :=
  [1, 2, 3, 4, 5, 6, 7, 8, 9, 10, 11, 12, 13, 14, 15, 16]

/-- A strictly falling close series of sixteen bars: 16, 15, …, 1. -/
def fallingCloses : List ℚ :=
  [16, 15, 14, 13, 12, 11, 10, 9, 8, 7, 6, 5, 4, 3, 2, 1]

/-- A constant close series of sixteen bars at 100. -/
def constantCloses : List ℚ :=
  [100, 100, 100, 100, 100, 100, 100, 100, 100, 100, 100, 100, 100, 100,
   100, 100]

/-- A degenerate bar whose four prices all equal `c` (volume 1000). -/
def constBar (c : ℚ) : Bar :=
  { openPrice := c, high := c, low := c, close := c, volume := 1000 }

/-- Embeds `n` identical bars at price `c`: the constant-price series used as a
concrete input. -/
def constBars (n : ℕ) (c : ℚ) : List Bar := List.replicate n (constBar c)

/-- The indicator mapping whose only present entry is `sma_20 = 50`,
used by the composite counterexample. -/
def indSma20 : Indicators := { sma_20 := some 50 }

/-- A single bar at price 100: the bar list of the composite
counterexample. -/
def oneBar100 : List Bar := [constBar 100]

/-!
Helper lemmas

General facts about the embedding, shared by the claim theorems below.
-/

lemma listMean_replicate {n : ℕ} {c : ℚ} (h : n ≠ 0) :
    listMean (List.replicate n c) = c := by
  rw [listMean, List.sum_replicate, List.length_replicate, nsmul_eq_mul]
  rw [mul_comm, mul_div_assoc, div_self (by exact_mod_cast h), mul_one]

lemma listMax_replicate {n : ℕ} {c : ℚ} (h : n ≠ 0) :
    listMax (List.replicate n c) = c := by
  cases n with
  | zero => exact absurd rfl h
  | succ m =>
    rw [List.replicate_succ, listMax]
    induction m with
    | zero => rfl
    | succ k ih =>
      rw [List.replicate_succ, List.foldl_cons, max_self]
      exact ih (by omega)

lemma lastD_replicate {n : ℕ} {c : ℚ} (h : n ≠ 0) :
    lastD (List.replicate n c) = c := by
  rw [lastD, ilocNeg, List.length_replicate, List.get?_eq_getElem?,
    List.getElem?_replicate]
  rw [if_pos (by omega)]
  rfl

lemma headD_replicate {n : ℕ} {c d : ℚ} (h : n ≠ 0) :
    (List.replicate n c).headD d = c := by
  cases n with
  | zero => exact absurd rfl h
  | succ m => rw [List.replicate_succ]; rfl

/-- The rolling mean of a constant series: `w - 1` leading NaNs followed by
the constant itself. -/
lemma rollingMean_replicate {n w : ℕ} {c : ℚ} (hw : w ≠ 0) :
    rollingMean (List.replicate n c) w =
      List.replicate (min (w - 1) n) (none : Option ℚ) ++
        List.replicate (n - (w - 1)) (some c) := by
  apply List.ext_getElem?
  intro i
  rw [rollingMean, List.length_replicate]
  rw [List.getElem?_map, List.getElem?_append]
  rcases lt_or_le i n with hin | hin
  · rw [List.getElem?_range hin]
    rw [List.length_replicate]
    rcases lt_or_le i (min (w - 1) n) with hiw | hiw
    · rw [if_pos hiw, List.getElem?_replicate, if_pos hiw]
      have : ¬ w ≤ i + 1 := by omega
      simp [this]
    · rw [if_neg (by omega), List.getElem?_replicate, if_pos (by omega)]
      have hle : w ≤ i + 1 := by omega
      rw [Option.map_some']
      rw [if_pos hle, List.drop_replicate, List.take_replicate]
      have hmin : min w (n - (i + 1 - w)) = w := by omega
      rw [hmin, listMean_replicate hw]
  · rw [List.getElem?_eq_none (by rw [List.length_range]; omega)]
    rw [Option.map_none']
    rcases lt_or_le i (min (w - 1) n) with hiw | hiw
    · omega
    · rw [List.length_replicate, if_neg (by omega),
        List.getElem?_replicate, if_neg (by omega)]

lemma closes_constBars (n : ℕ) (c : ℚ) :
    closes (constBars n c) = List.replicate n c := by
  rw [closes, constBars, List.map_replicate]; rfl

lemma highs_constBars (n : ℕ) (c : ℚ) :
    highs (constBars n c) = List.replicate n c := by
  rw [highs, constBars, List.map_replicate]; rfl

lemma lows_constBars (n : ℕ) (c : ℚ) :
    lows (constBars n c) = List.replicate n c := by
  rw [lows, constBars, List.map_replicate]; rfl

lemma volumes_constBars (n : ℕ) (c : ℚ) :
    volumes (constBars n c) = List.replicate n (1000 : ℚ) := by
  rw [volumes, constBars, List.map_replicate]; rfl

lemma length_constBars (n : ℕ) (c : ℚ) : (constBars n c).length = n := by
  rw [constBars, List.length_replicate]

/-!
Sub-score range lemmas

Each sub-score is confined to its documented `[0, max]` range: the clamped
ones (`max 0 (min M ·)`) immediately, the `min M ·` ones because every
branch contribution is nonnegative.
-/

lemma minerviniScoreSetup_bounds (bars : List Bar) (ind : Indicators) :
    0 ≤ minerviniScoreSetup bars ind ∧ minerviniScoreSetup bars ind ≤ 25 := by
  unfold minerviniScoreSetup
  exact ⟨le_max_left 0 _, max_le (by norm_num) (min_le_left _ _)⟩

lemma minerviniScoreVcp_bounds (bars : List Bar) :
    0 ≤ minerviniScoreVcp bars ∧ minerviniScoreVcp bars ≤ 25 := by
  unfold minerviniScoreVcp
  dsimp only
  split_ifs <;>
    refine ⟨?_, ?_⟩ <;>
    first
      | positivity
      | exact min_le_left _ _

lemma minerviniScoreVolume_bounds (bars : List Bar) (ind : Indicators) :
    0 ≤ minerviniScoreVolume bars ind ∧ minerviniScoreVolume bars ind ≤ 20 := by
  unfold minerviniScoreVolume
  exact ⟨le_max_left 0 _, max_le (by norm_num) (min_le_left _ _)⟩

lemma minerviniScoreRelativeStrength_bounds (bars : List Bar)
    (ind : Indicators) :
    0 ≤ minerviniScoreRelativeStrength bars ind ∧
      minerviniScoreRelativeStrength bars ind ≤ 15 := by
  unfold minerviniScoreRelativeStrength
  dsimp only
  split <;> [skip; split_ifs] <;>
    exact ⟨le_min (by norm_num) (by norm_num), min_le_left _ _⟩

lemma minerviniScoreMarketAlignment_bounds (ind : Indicators) :
    0 ≤ minerviniScoreMarketAlignment ind ∧
      minerviniScoreMarketAlignment ind ≤ 15 := by
  unfold minerviniScoreMarketAlignment
  exact ⟨le_max_left 0 _, max_le (by norm_num) (min_le_left _ _)⟩

lemma weinsteinScoreStage_bounds (stage : WStage) :
    0 ≤ weinsteinScoreStage stage ∧ weinsteinScoreStage stage ≤ 40 := by
  cases stage <;> exact ⟨by norm_num [weinsteinScoreStage],
    by norm_num [weinsteinScoreStage]⟩

lemma weinsteinScoreMaRelationship_bounds (bars : List Bar)
    (ind : Indicators) :
    0 ≤ weinsteinScoreMaRelationship bars ind ∧
      weinsteinScoreMaRelationship bars ind ≤ 25 := by
  unfold weinsteinScoreMaRelationship
  exact ⟨le_max_left 0 _, max_le (by norm_num) (min_le_left _ _)⟩

lemma weinsteinScorePriceAction_bounds (bars : List Bar) (ind : Indicators) :
    0 ≤ weinsteinScorePriceAction bars ind ∧
      weinsteinScorePriceAction bars ind ≤ 20 := by
  unfold weinsteinScorePriceAction
  dsimp only
  split
  · exact ⟨le_refl 0, by norm_num⟩
  · refine ⟨le_min (by norm_num)
      (add_nonneg (add_nonneg ?_ ?_) ?_), min_le_left _ _⟩ <;>
      split_ifs <;> norm_num

lemma weinsteinScoreVolume_bounds (bars : List Bar) :
    0 ≤ weinsteinScoreVolume bars ∧ weinsteinScoreVolume bars ≤ 15 := by
  unfold weinsteinScoreVolume
  dsimp only
  refine ⟨le_min (by norm_num) (add_nonneg ?_ ?_), min_le_left _ _⟩ <;>
    split_ifs <;> norm_num

lemma lynchScoreTrendConsistency_bounds (bars : List Bar) (ind : Indicators) :
    0 ≤ lynchScoreTrendConsistency bars ind ∧
      lynchScoreTrendConsistency bars ind ≤ 30 := by
  unfold lynchScoreTrendConsistency
  dsimp only
  split
  · exact ⟨le_refl 0, by norm_num⟩
  · refine ⟨le_min (by norm_num)
      (add_nonneg (add_nonneg ?_ ?_) ?_), min_le_left _ _⟩ <;>
      split_ifs <;> norm_num

lemma lynchScorePullbackQuality_bounds (bars : List Bar) (ind : Indicators) :
    0 ≤ lynchScorePullbackQuality bars ind ∧
      lynchScorePullbackQuality bars ind ≤ 25 := by
  unfold lynchScorePullbackQuality
  dsimp only
  refine ⟨le_min (by norm_num)
    (add_nonneg (add_nonneg (by split_ifs <;> norm_num)
      (by split_ifs <;> norm_num)) (by split_ifs <;> norm_num)),
    min_le_left _ _⟩

lemma lynchScoreVolumePatterns_bounds (bars : List Bar) (ind : Indicators) :
    0 ≤ lynchScoreVolumePatterns bars ind ∧
      lynchScoreVolumePatterns bars ind ≤ 20 := by
  unfold lynchScoreVolumePatterns
  dsimp only
  refine ⟨le_min (by norm_num) (add_nonneg ?_ ?_), min_le_left _ _⟩ <;>
    split_ifs <;> norm_num

lemma lynchScoreMomentum_bounds (ind : Indicators) :
    0 ≤ lynchScoreMomentum ind ∧ lynchScoreMomentum ind ≤ 15 := by
  unfold lynchScoreMomentum
  dsimp only
  refine ⟨le_min (by norm_num)
    (add_nonneg (add_nonneg ?_ ?_) ?_), min_le_left _ _⟩
  · split <;> first | (split_ifs <;> norm_num) | norm_num
  · split_ifs <;> norm_num
  · split <;> first | (split_ifs <;> norm_num) | norm_num

lemma lynchScoreVolatility_bounds (bars : List Bar) (ind : Indicators) :
    0 ≤ lynchScoreVolatility bars ind ∧ lynchScoreVolatility bars ind ≤ 10 := by
  unfold lynchScoreVolatility
  exact ⟨le_max_left 0 _, max_le (by norm_num) (min_le_left _ _)⟩

lemma calcTechnicalScore_bounds (bars : List Bar) (ind : Indicators) :
    0 ≤ calcTechnicalScore bars ind ∧ calcTechnicalScore bars ind ≤ 100 := by
  unfold calcTechnicalScore
  dsimp only
  split
  · norm_num
  · exact ⟨le_max_left 0 _, max_le (by norm_num) (min_le_left _ _)⟩

/-- The total Minervini score is within [0, 100] (100-bar gate aside). -/
lemma minerviniAnalyze_score_bounds (bars : List Bar) (ind : Indicators) :
    0 ≤ (minerviniAnalyze bars ind).score ∧
      (minerviniAnalyze bars ind).score ≤ 100 := by
  unfold minerviniAnalyze
  split_ifs
  · norm_num [minerviniInsufficient]
  · dsimp only
    obtain ⟨h1, h2⟩ := minerviniScoreSetup_bounds bars ind
    obtain ⟨h3, h4⟩ := minerviniScoreVcp_bounds bars
    obtain ⟨h5, h6⟩ := minerviniScoreVolume_bounds bars ind
    obtain ⟨h7, h8⟩ := minerviniScoreRelativeStrength_bounds bars ind
    obtain ⟨h9, h10⟩ := minerviniScoreMarketAlignment_bounds ind
    constructor <;> linarith

/-- The total Weinstein score is within [0, 100]. -/
lemma weinsteinAnalyze_score_bounds (bars : List Bar) (ind : Indicators) :
    0 ≤ (weinsteinAnalyze bars ind).score ∧
      (weinsteinAnalyze bars ind).score ≤ 100 := by
  unfold weinsteinAnalyze
  split_ifs
  · norm_num [weinsteinInsufficient]
  · dsimp only
    obtain ⟨h1, h2⟩ := weinsteinScoreStage_bounds (weinsteinStrategyStage bars)
    obtain ⟨h3, h4⟩ := weinsteinScoreMaRelationship_bounds bars ind
    obtain ⟨h5, h6⟩ := weinsteinScorePriceAction_bounds bars ind
    obtain ⟨h7, h8⟩ := weinsteinScoreVolume_bounds bars
    constructor <;> linarith

/-!
Evaluation of the two stage classifiers on a 200-bar constant series
-/

/-- The 150-bar rolling mean of 200 constant closes at 100. -/
lemma wma_const200 :
    rollingMean (List.replicate 200 (100 : ℚ)) 150 =
      List.replicate 149 (none : Option ℚ) ++
        List.replicate 51 (some (100 : ℚ)) := by
  rw [rollingMean_replicate (by norm_num)]
  norm_num

lemma wma_const200_last :
    (ilocNeg (List.replicate 149 (none : Option ℚ) ++
      List.replicate 51 (some (100 : ℚ))) 1).join = some 100 := by
  rw [ilocNeg, List.length_append, List.length_replicate, List.length_replicate]
  rw [List.get?_eq_getElem?,
    List.getElem?_append_right (by rw [List.length_replicate]; omega)]
  rw [List.length_replicate, List.getElem?_replicate, if_pos (by omega)]
  rfl

lemma wma_const200_at100 :
    (ilocNeg (List.replicate 149 (none : Option ℚ) ++
      List.replicate 51 (some (100 : ℚ))) 100).join = none := by
  rw [ilocNeg, List.length_append, List.length_replicate, List.length_replicate]
  rw [List.get?_eq_getElem?,
    List.getElem?_append_left (by rw [List.length_replicate]; omega)]
  rw [List.getElem?_replicate, if_pos (by omega)]
  rfl

/-- The 50-row trailing slope of the constant 150-bar MA is zero. -/
lemma slope_wma_const200_50 :
    calculateSlope (List.replicate 149 (none : Option ℚ) ++
      List.replicate 51 (some (100 : ℚ))) 50 = 0 := by
  unfold calculateSlope
  rw [if_neg (by rw [List.length_append, List.length_replicate,
    List.length_replicate]; omega)]
  have ht : tailN (List.replicate 149 (none : Option ℚ) ++
      List.replicate 51 (some (100 : ℚ))) 50 =
      List.replicate 50 (some (100 : ℚ)) := by
    rw [tailN, List.length_append, List.length_replicate, List.length_replicate]
    rw [List.drop_append_eq_append_drop, List.drop_replicate, List.drop_replicate]
    norm_num
  rw [ht]
  have hd : dropna (List.replicate 50 (some (100 : ℚ))) =
      List.replicate 50 (100 : ℚ) := by
    rw [dropna, List.filterMap_replicate]
    rfl
  rw [hd]
  rw [if_neg (by rw [List.length_replicate]; omega)]
  rw [headD_replicate (by omega), lastD_replicate (by omega)]
  norm_num

/-- Value of `iloc[-k]` with default on a constant series. -/
lemma ilocNegD_replicate {n k : ℕ} {c d : ℚ} (h1 : k ≤ n) (h2 : k ≠ 0) :
    ilocNegD (List.replicate n c) k d = c := by
  rw [ilocNegD, ilocNeg, List.length_replicate, List.get?_eq_getElem?,
    List.getElem?_replicate, if_pos (by omega)]
  rfl

/-- The 150-row trailing slope of the constant 150-bar MA is zero. -/
lemma slope_wma_const200_150 :
    calculateSlope (List.replicate 149 (none : Option ℚ) ++
      List.replicate 51 (some (100 : ℚ))) 150 = 0 := by
  unfold calculateSlope
  rw [if_neg (by rw [List.length_append, List.length_replicate,
    List.length_replicate]; omega)]
  have ht : tailN (List.replicate 149 (none : Option ℚ) ++
      List.replicate 51 (some (100 : ℚ))) 150 =
      List.replicate 99 (none : Option ℚ) ++
        List.replicate 51 (some (100 : ℚ)) := by
    rw [tailN, List.length_append, List.length_replicate, List.length_replicate]
    rw [List.drop_append_eq_append_drop, List.drop_replicate, List.drop_replicate]
    norm_num
  rw [ht]
  have hd : dropna (List.replicate 99 (none : Option ℚ) ++
      List.replicate 51 (some (100 : ℚ))) = List.replicate 51 (100 : ℚ) := by
    rw [dropna, List.filterMap_append, List.filterMap_replicate,
      List.filterMap_replicate]
    rfl
  rw [hd]
  rw [if_neg (by rw [List.length_replicate]; omega)]
  rw [headD_replicate (by omega), lastD_replicate (by omega)]
  norm_num

/-- On 200 constant bars the scorer's own classifier lands in the flat
branch with an NaN prior MA and returns Stage 3. -/
lemma weinsteinStrategyStage_const200 :
    weinsteinStrategyStage (constBars 200 100) = WStage.stage3 := by
  simp only [weinsteinStrategyStage, closes_constBars, length_constBars]
  rw [wma_const200]
  rw [lastD_replicate (by omega)]
  rw [wma_const200_last, slope_wma_const200_50]
  have hgt : qGtOpt 100 (some (100 : ℚ)) = false := by
    simp [qGtOpt]
  rw [hgt]
  rw [if_neg (by rintro ⟨h, -⟩; norm_num at h)]
  rw [if_neg (by rintro ⟨h, -⟩; norm_num at h)]
  rw [if_pos (by norm_num)]
  simp only [List.length_append, List.length_replicate]
  rw [show (100 : ℕ) ⊓ (200 - 1) = 100 by omega]
  rw [if_pos (show (100 : ℕ) < 200 by omega)]
  rw [if_pos (show (100 : ℕ) < 149 + 51 by omega)]
  rw [ilocNegD_replicate (by omega) (by omega), wma_const200_at100]
  rw [if_neg (by simp [qLtOpt])]

/-- On the same 200 constant bars the Trend Analyzer's classifier lands in
its flat branch with both crossing tests false and returns Stage 1. -/
lemma determineWeinsteinStage_const200 :
    determineWeinsteinStage (constBars 200 100) = WStage.stage1 := by
  simp only [determineWeinsteinStage, closes_constBars, length_constBars]
  rw [if_neg (by omega)]
  rw [wma_const200]
  rw [lastD_replicate (by omega)]
  have hne : (List.replicate 149 (none : Option ℚ) ++
      List.replicate 51 (some (100 : ℚ))).isEmpty = false := by
    simp
  rw [hne]
  simp only [Bool.false_eq_true, if_false]
  rw [wma_const200_last, slope_wma_const200_150]
  have hgt : qGtOpt 100 (some (100 : ℚ)) = false := by
    simp [qGtOpt]
  rw [hgt]
  rw [if_neg (by rintro ⟨h, -⟩; simp at h)]
  rw [if_neg (by rintro ⟨-, h⟩; norm_num at h)]
  rw [if_pos (by norm_num)]
  simp only [List.length_append, List.length_replicate]
  rw [show (100 : ℕ) ⊓ (200 - 1) = 100 by omega]
  rw [if_pos (show (100 : ℕ) < 149 + 51 by omega)]
  rw [if_pos (show (100 : ℕ) < 200 by omega)]
  rw [ilocNegD_replicate (by omega) (by omega), wma_const200_at100]
  rw [if_neg (by rintro ⟨h, -⟩; simp [qLtOpt] at h)]
  rw [if_neg (by rintro ⟨h, -⟩; simp [qGtOpt] at h)]

/-- The total Lynch score is within [0, 100]. -/
lemma lynchAnalyze_score_bounds (bars : List Bar) (ind : Indicators) :
    0 ≤ (lynchAnalyze bars ind).score ∧ (lynchAnalyze bars ind).score ≤ 100 := by
  unfold lynchAnalyze
  split_ifs
  · norm_num [lynchInsufficient]
  · dsimp only
    obtain ⟨h1, h2⟩ := lynchScoreTrendConsistency_bounds bars ind
    obtain ⟨h3, h4⟩ := lynchScorePullbackQuality_bounds bars ind
    obtain ⟨h5, h6⟩ := lynchScoreVolumePatterns_bounds bars ind
    obtain ⟨h7, h8⟩ := lynchScoreMomentum_bounds ind
    obtain ⟨h9, h10⟩ := lynchScoreVolatility_bounds bars ind
    constructor <;> linarith

/-!
Rounding lemmas
-/

/-- Rounding to one decimal moves a value by at most `1/20`. -/
lemma abs_round1_sub_le (x : ℚ) : |round1 x - x| ≤ 1 / 20 := by
  have h := abs_sub_round (10 * x)
  rw [abs_sub_comm] at h
  have heq : round1 x - x = (((round (10 * x) : ℤ) : ℚ) - 10 * x) / 10 := by
    rw [round1]; ring
  rw [heq, abs_div, abs_of_pos (by norm_num : (0 : ℚ) < 10)]
  rw [div_le_iff₀ (by norm_num : (0 : ℚ) < 10)]
  linarith

lemma round_mono_q {x y : ℚ} (h : x ≤ y) : (round x : ℤ) ≤ round y := by
  rw [round_eq, round_eq]
  exact Int.floor_le_floor (by linarith)

/-- Rounding to two decimals is monotone. -/
lemma round2_mono {x y : ℚ} (h : x ≤ y) : round2 x ≤ round2 y := by
  rw [round2, round2]
  have hr : (round (100 * x) : ℤ) ≤ round (100 * y) :=
    round_mono_q (by linarith)
  have hc : ((round (100 * x) : ℤ) : ℚ) ≤ ((round (100 * y) : ℤ) : ℚ) := by
    exact_mod_cast hr
  linarith

/-!
Clustering loop characterization
-/

lemma clusterLoop_eq_map_merge (tol cp : ℚ) :
    ∀ (rest : List Level) (anchor : Level) (acc : List Level),
      clusterLoop tol cp anchor acc rest =
        (anchorGroupsLoop tol anchor acc rest).map fun g => mergeCluster g cp := by
  intro rest
  induction rest with
  | nil => intro anchor acc; rfl
  | cons l rest ih =>
    intro anchor acc
    rw [clusterLoop, anchorGroupsLoop]
    split_ifs
    · exact ih anchor (acc ++ [l])
    · rw [List.map_cons, ih l []]

lemma anchorGroupsLoop_within (tol : ℚ) :
    ∀ (rest : List Level) (anchor : Level) (acc : List Level),
      (∀ x ∈ acc, |x.price - anchor.price| ≤ tol) →
      ∀ g ∈ anchorGroupsLoop tol anchor acc rest, ∀ l ∈ g.drop 1,
        |l.price - (g.headD l).price| ≤ tol := by
  intro rest
  induction rest with
  | nil =>
    intro anchor acc hacc g hg l hl
    rw [anchorGroupsLoop, List.mem_singleton] at hg
    subst hg
    simp only [List.drop_succ_cons, List.drop_zero] at hl
    exact hacc l hl
  | cons x rest ih =>
    intro anchor acc hacc g hg l hl
    rw [anchorGroupsLoop] at hg
    split_ifs at hg with hx
    · refine ih anchor (acc ++ [x]) ?_ g hg l hl
      intro y hy
      rcases List.mem_append.mp hy with hy | hy
      · exact hacc y hy
      · rw [List.mem_singleton] at hy; subst hy; exact hx
    · rcases List.mem_cons.mp hg with hg | hg
      · subst hg
        simp only [List.drop_succ_cons, List.drop_zero] at hl
        exact hacc l hl
      · exact ih x [] (by intro y hy; cases hy) g hg l hl

lemma mergeCluster_pair (a b : Level) (rest : List Level) (cp : ℚ) :
    mergeCluster (a :: b :: rest) cp =
      { price := ((a :: b :: rest).map fun l => l.price * (l.strength : ℚ)).sum /
          (((a :: b :: rest).map Level.strength).sum : ℚ)
        strength := min 5
          (((a :: b :: rest).map Level.strength).sum / (a :: b :: rest).length + 1)
        touches := ((a :: b :: rest).map Level.touches).sum
        level_type :=
          if ((a :: b :: rest).map fun l => l.price * (l.strength : ℚ)).sum /
              (((a :: b :: rest).map Level.strength).sum : ℚ) < cp
          then "support" else "resistance"
        description := "Clustered level" } := rfl

/-!
Membership facts for `detect_levels`
-/

lemma mem_insertByLe {le : α → α → Bool} {x a : α} :
    ∀ {ys : List α}, a ∈ insertByLe le x ys ↔ a = x ∨ a ∈ ys := by
  intro ys
  induction ys with
  | nil => simp [insertByLe]
  | cons y ys ih =>
    rw [insertByLe]
    split_ifs
    · simp
    · rw [List.mem_cons, ih, List.mem_cons]
      tauto

lemma mem_sortByLe {le : α → α → Bool} {a : α} :
    ∀ {xs : List α}, a ∈ sortByLe le xs ↔ a ∈ xs := by
  intro xs
  induction xs with
  | nil => simp [sortByLe]
  | cons x xs ih =>
    rw [sortByLe, List.foldr_cons, mem_insertByLe]
    rw [List.mem_cons]
    rw [sortByLe] at ih
    rw [ih]

lemma detectLevels_mem_support {bars : List Bar} {l : Level}
    (h : l ∈ (detectLevels bars).1) :
    l.price < lastD (closes bars) ∧ l.level_type = "support" := by
  unfold detectLevels at h
  split_ifs at h with hg
  · cases h
  · dsimp only at h
    have h1 := List.take_subset 10 _ h
    have h2 := mem_sortByLe.mp h1
    have h3 := List.mem_filter.mp h2
    exact of_decide_eq_true h3.2

lemma detectLevels_mem_resistance {bars : List Bar} {l : Level}
    (h : l ∈ (detectLevels bars).2) :
    lastD (closes bars) < l.price ∧ l.level_type = "resistance" := by
  unfold detectLevels at h
  split_ifs at h with hg
  · cases h
  · dsimp only at h
    have h1 := List.take_subset 10 _ h
    have h2 := mem_sortByLe.mp h1
    have h3 := List.mem_filter.mp h2
    exact of_decide_eq_true h3.2

end ChartAnalyzer

/-- C1: the claim states that the `avg_loss.replace(0, inf)` substitution in
`TechnicalIndicators._calculate_rsi` makes a strictly rising close series
(zero average loss) evaluate to RSI exactly 100 and a constant series
likewise 100, with a strictly falling series at 0.  The code instead yields
`rs = avg_gain / inf = 0` and hence RSI = 100 − 100/(1+0) = 0 for the rising
and constant series: the substitution collapses the infinite-RS branch to
RSI 0, not 100.  This theorem evaluates the embedded computation at the
failing inputs: rising and constant series give 0 (the claim and the spec
require 100), and the falling series gives 0 as claimed. -/
theorem rsi_infinite_rs_branch_yields_zero :
    ChartAnalyzer.calculateRsi ChartAnalyzer.risingCloses = some 0 ∧
    ChartAnalyzer.calculateRsi ChartAnalyzer.constantCloses = some 0 ∧
    ChartAnalyzer.calculateRsi ChartAnalyzer.fallingCloses = some 0 := by
  refine ⟨?_, ?_, ?_⟩ <;>
    norm_num [ChartAnalyzer.calculateRsi, ChartAnalyzer.risingCloses,
      ChartAnalyzer.fallingCloses, ChartAnalyzer.constantCloses,
      ChartAnalyzer.tailN, ChartAnalyzer.listMean]

open ChartAnalyzer

/-- C2, counterexample: the claim says the Lynch scorer accepts any bar
sequence with at least 50 bars; the code gates `LynchStrategy.analyze` at
**100** bars, so a 50-bar input — which the claim says must be accepted —
is answered with the insufficient-data result (score 0, "Insufficient
data", AVOID, LOW), not an actual analysis.  There is also no fundamental
branch to delegate to: `analyze(df, indicators)` takes no fundamental
data. -/
theorem lynch_fifty_bars_rejected :
    (constBars 50 100).length = 50 ∧
    lynchAnalyze (constBars 50 100) emptyIndicators = lynchInsufficient ∧
    lynchInsufficient.score = 0 ∧
    lynchInsufficient.bearishFactors = ["Insufficient data"] ∧
    lynchInsufficient.signal = "AVOID" := by
  refine ⟨length_constBars 50 100, ?_, rfl, rfl, rfl⟩
  unfold lynchAnalyze
  rw [if_pos (by rw [length_constBars]; omega)]

/-- C3, counterexample: the claim says the Weinstein scorer's stage equals
`TrendAnalyzer.determine_weinstein_stage` on the same bars.  On a constant
series of 200 bars at price 100 (accepted by the scorer, which needs only
150 bars) the scorer's own `_determine_stage` (50-bar slope, 0.02 deadband,
prior-comparison flat branch) returns Stage 3, while the Trend Analyzer's
classifier (150-bar slope, 0.01 deadband, crossing-test flat branch)
returns Stage 1. -/
theorem weinstein_stage_classifiers_disagree :
    150 ≤ (constBars 200 100).length ∧
    weinsteinStrategyStage (constBars 200 100) = WStage.stage3 ∧
    determineWeinsteinStage (constBars 200 100) = WStage.stage1 ∧
    WStage.stage3 ≠ WStage.stage1 :=
  ⟨by rw [length_constBars]; omega, weinsteinStrategyStage_const200,
    determineWeinsteinStage_const200, by decide⟩

/-- C3, amended: the Weinstein scorer's 40-point stage sub-score is based on
the stage produced by its **own** `_determine_stage` classifier (150-bar MA
with a 50-bar trailing slope and a 0.02 deadband), not on the Trend
Analyzer's `determine_weinstein_stage`; the two classifiers are independent
and can disagree. -/
theorem weinstein_stage_subscore_from_own_classifier :
    ∀ (bars : List Bar) (ind : Indicators), 150 ≤ bars.length →
      weinsteinAnalyze bars ind =
        { score := weinsteinScoreStage (weinsteinStrategyStage bars) +
            weinsteinScoreMaRelationship bars ind +
            weinsteinScorePriceAction bars ind + weinsteinScoreVolume bars
          bullishFactors := []
          bearishFactors := []
          warnings := []
          signal := (getSignalFromScore
            (weinsteinScoreStage (weinsteinStrategyStage bars) +
              weinsteinScoreMaRelationship bars ind +
              weinsteinScorePriceAction bars ind +
              weinsteinScoreVolume bars)).1
          conviction := (getSignalFromScore
            (weinsteinScoreStage (weinsteinStrategyStage bars) +
              weinsteinScoreMaRelationship bars ind +
              weinsteinScorePriceAction bars ind +
              weinsteinScoreVolume bars)).2 } := by
  intro bars ind h
  unfold weinsteinAnalyze
  rw [if_neg (by omega)]

/-- Witness for the amended C3 theorem at a concrete 150-bar input. -/
theorem weinstein_stage_subscore_from_own_classifier_witness :
    weinsteinAnalyze (constBars 150 1) emptyIndicators =
      { score := weinsteinScoreStage (weinsteinStrategyStage (constBars 150 1)) +
          weinsteinScoreMaRelationship (constBars 150 1) emptyIndicators +
          weinsteinScorePriceAction (constBars 150 1) emptyIndicators +
          weinsteinScoreVolume (constBars 150 1)
        bullishFactors := []
        bearishFactors := []
        warnings := []
        signal := (getSignalFromScore
          (weinsteinScoreStage (weinsteinStrategyStage (constBars 150 1)) +
            weinsteinScoreMaRelationship (constBars 150 1) emptyIndicators +
            weinsteinScorePriceAction (constBars 150 1) emptyIndicators +
            weinsteinScoreVolume (constBars 150 1))).1
        conviction := (getSignalFromScore
          (weinsteinScoreStage (weinsteinStrategyStage (constBars 150 1)) +
            weinsteinScoreMaRelationship (constBars 150 1) emptyIndicators +
            weinsteinScorePriceAction (constBars 150 1) emptyIndicators +
            weinsteinScoreVolume (constBars 150 1))).2 } :=
  weinstein_stage_subscore_from_own_classifier (constBars 150 1)
    emptyIndicators (by rw [length_constBars])

/-- C2, amended: the Lynch scorer requires at least **100** bars (fewer
yields the fixed insufficient-data result); with enough bars it returns a
purely technical score — trend-consistency(30) + pullback(25) + volume(20)
+ momentum(15) + volatility(10) — with signal and conviction from the
shared score table, never consulting fundamental data (the `analyze`
signature has no fundamentals parameter).  The separate `FundamentalScorer`
service does implement the claimed debt-to-equity buckets: D/E < 0.3 scores
the full 20 points and D/E ≥ 3.0 scores 0 with an excessive-leverage
warning. -/
theorem lynch_requires_100_bars_technical_only :
    (∀ (bars : List Bar) (ind : Indicators), bars.length < 100 →
      lynchAnalyze bars ind = lynchInsufficient) ∧
    (∀ (bars : List Bar) (ind : Indicators), 100 ≤ bars.length →
      lynchAnalyze bars ind =
        { score := lynchScoreTrendConsistency bars ind +
            lynchScorePullbackQuality bars ind +
            lynchScoreVolumePatterns bars ind + lynchScoreMomentum ind +
            lynchScoreVolatility bars ind
          bullishFactors := []
          bearishFactors := []
          warnings := []
          signal := (getSignalFromScore (lynchScoreTrendConsistency bars ind +
            lynchScorePullbackQuality bars ind +
            lynchScoreVolumePatterns bars ind + lynchScoreMomentum ind +
            lynchScoreVolatility bars ind)).1
          conviction := (getSignalFromScore
            (lynchScoreTrendConsistency bars ind +
              lynchScorePullbackQuality bars ind +
              lynchScoreVolumePatterns bars ind + lynchScoreMomentum ind +
              lynchScoreVolatility bars ind)).2 }) ∧
    (∀ de : ℚ, de < 3 / 10 → scoreDebtEquity (some de) = (20, [])) ∧
    (∀ de : ℚ, 3 ≤ de → scoreDebtEquity (some de) =
      (0, ["Excessive leverage - significant financial risk"])) := by
  refine ⟨?_, ?_, ?_, ?_⟩
  · intro bars ind h
    unfold lynchAnalyze
    rw [if_pos h]
  · intro bars ind h
    unfold lynchAnalyze
    rw [if_neg (by omega)]
  · intro de h
    unfold scoreDebtEquity
    dsimp only
    rw [if_pos h]
    norm_num
  · intro de h
    unfold scoreDebtEquity
    dsimp only
    rw [if_neg (by linarith), if_neg (by linarith), if_neg (by linarith),
      if_neg (by linarith), if_neg (by linarith), if_neg (by linarith),
      if_neg (by linarith)]
    norm_num

/-- Witness for the amended C2 theorem: the 99-bar gate case, the 100-bar
decomposition case (both at constant price 100) and the two debt buckets at
concrete D/E values 0.1 and 4. -/
theorem lynch_requires_100_bars_technical_only_witness :
    lynchAnalyze (constBars 99 100) emptyIndicators = lynchInsufficient ∧
    lynchAnalyze (constBars 100 100) emptyIndicators =
      { score := lynchScoreTrendConsistency (constBars 100 100) emptyIndicators +
          lynchScorePullbackQuality (constBars 100 100) emptyIndicators +
          lynchScoreVolumePatterns (constBars 100 100) emptyIndicators +
          lynchScoreMomentum emptyIndicators +
          lynchScoreVolatility (constBars 100 100) emptyIndicators
        bullishFactors := []
        bearishFactors := []
        warnings := []
        signal := (getSignalFromScore
          (lynchScoreTrendConsistency (constBars 100 100) emptyIndicators +
            lynchScorePullbackQuality (constBars 100 100) emptyIndicators +
            lynchScoreVolumePatterns (constBars 100 100) emptyIndicators +
            lynchScoreMomentum emptyIndicators +
            lynchScoreVolatility (constBars 100 100) emptyIndicators)).1
        conviction := (getSignalFromScore
          (lynchScoreTrendConsistency (constBars 100 100) emptyIndicators +
            lynchScorePullbackQuality (constBars 100 100) emptyIndicators +
            lynchScoreVolumePatterns (constBars 100 100) emptyIndicators +
            lynchScoreMomentum emptyIndicators +
            lynchScoreVolatility (constBars 100 100) emptyIndicators)).2 } ∧
    scoreDebtEquity (some (1 / 10)) = (20, []) ∧
    scoreDebtEquity (some 4) =
      (0, ["Excessive leverage - significant financial risk"]) :=
  ⟨lynch_requires_100_bars_technical_only.1 (constBars 99 100)
      emptyIndicators (by rw [length_constBars]; omega),
    lynch_requires_100_bars_technical_only.2.1 (constBars 100 100)
      emptyIndicators (by rw [length_constBars]),
    lynch_requires_100_bars_technical_only.2.2.1 (1 / 10) (by norm_num),
    lynch_requires_100_bars_technical_only.2.2.2 4 (by norm_num)⟩

/-- C4, amended: the reported `composite_score` is the weighted sum
`0.35·minervini + 0.35·weinstein + 0.15·lynch + 0.15·technical` **rounded
to one decimal place** (the unrounded sum is what feeds signal
determination), hence it agrees with the weighted sum only within 0.05, not
within 1e-6. -/
theorem composite_score_is_rounded_weighted_sum :
    ∀ (bars : List Bar) (ind : Indicators) (topt : Option ℚ),
      (compositeAnalyze bars ind topt).scores.composite_score =
        round1 ((minerviniAnalyze bars ind).score * (35 / 100) +
          (weinsteinAnalyze bars ind).score * (35 / 100) +
          (lynchAnalyze bars ind).score * (15 / 100) +
          (topt.getD (calcTechnicalScore bars ind)) * (15 / 100)) ∧
      |(compositeAnalyze bars ind topt).scores.composite_score -
          ((minerviniAnalyze bars ind).score * (35 / 100) +
            (weinsteinAnalyze bars ind).score * (35 / 100) +
            (lynchAnalyze bars ind).score * (15 / 100) +
            (topt.getD (calcTechnicalScore bars ind)) * (15 / 100))| ≤
        1 / 20 := by
  intro bars ind topt
  have h1 : (compositeAnalyze bars ind topt).scores.composite_score =
      round1 ((minerviniAnalyze bars ind).score * (35 / 100) +
        (weinsteinAnalyze bars ind).score * (35 / 100) +
        (lynchAnalyze bars ind).score * (15 / 100) +
        (topt.getD (calcTechnicalScore bars ind)) * (15 / 100)) := rfl
  exact ⟨h1, h1 ▸ abs_round1_sub_le _⟩

/-- C4, counterexample: the claim demands the reported `composite_score`
equal the weighted sum within 1e-6.  On a single constant bar at price 100
with only `sma_20 = 50` present, the sub-scores produced in the call are
minervini 0, weinstein 0, lynch 0 and technical 55, the weighted sum is
8.25, and the reported `composite_score` — `round(8.25, 1)` — is 8.3,
off by 0.05 > 1e-6. -/
theorem composite_rounding_exceeds_tolerance :
    (minerviniAnalyze oneBar100 indSma20).score = 0 ∧
    (weinsteinAnalyze oneBar100 indSma20).score = 0 ∧
    (lynchAnalyze oneBar100 indSma20).score = 0 ∧
    calcTechnicalScore oneBar100 indSma20 = 55 ∧
    (0 : ℚ) * (35 / 100) + 0 * (35 / 100) + 0 * (15 / 100) +
      55 * (15 / 100) = 33 / 4 ∧
    (compositeAnalyze oneBar100 indSma20 none).scores.composite_score =
      83 / 10 ∧
    ¬(|(compositeAnalyze oneBar100 indSma20 none).scores.composite_score -
        (33 / 4 : ℚ)| ≤ 1 / 1000000) := by
  have hm : minerviniAnalyze oneBar100 indSma20 = minerviniInsufficient := by
    unfold minerviniAnalyze
    rw [if_pos (by simp [oneBar100])]
  have hw : weinsteinAnalyze oneBar100 indSma20 = weinsteinInsufficient := by
    unfold weinsteinAnalyze
    rw [if_pos (by simp [oneBar100])]
  have hl : lynchAnalyze oneBar100 indSma20 = lynchInsufficient := by
    unfold lynchAnalyze
    rw [if_pos (by simp [oneBar100])]
  have ht : calcTechnicalScore oneBar100 indSma20 = 55 := by
    unfold calcTechnicalScore
    rw [if_neg (by simp [oneBar100, indSma20, Indicators.isEmpty])]
    norm_num [oneBar100, indSma20, constBar, truthy, closes, lastD, ilocNeg]
  have hcombo : (minerviniAnalyze oneBar100 indSma20).score * (35 / 100) +
      (weinsteinAnalyze oneBar100 indSma20).score * (35 / 100) +
      (lynchAnalyze oneBar100 indSma20).score * (15 / 100) +
      ((none : Option ℚ).getD (calcTechnicalScore oneBar100 indSma20)) *
        (15 / 100) = 33 / 4 := by
    rw [hm, hw, hl]
    simp only [Option.getD_none]
    rw [ht]
    norm_num [minerviniInsufficient, weinsteinInsufficient, lynchInsufficient]
  have hround : round1 (33 / 4 : ℚ) = 83 / 10 := by
    rw [round1, round_eq]
    rw [show (10 * (33 / 4 : ℚ) + 1 / 2) = ((83 : ℤ) : ℚ) by norm_num]
    rw [Int.floor_intCast]
    norm_num
  have hcs : (compositeAnalyze oneBar100 indSma20 none).scores.composite_score =
      83 / 10 := by
    have h1 : (compositeAnalyze oneBar100 indSma20 none).scores.composite_score =
        round1 ((minerviniAnalyze oneBar100 indSma20).score * (35 / 100) +
          (weinsteinAnalyze oneBar100 indSma20).score * (35 / 100) +
          (lynchAnalyze oneBar100 indSma20).score * (15 / 100) +
          ((none : Option ℚ).getD (calcTechnicalScore oneBar100 indSma20)) *
            (15 / 100)) := rfl
    rw [h1, hcombo, hround]
  refine ⟨by rw [hm]; rfl, by rw [hw]; rfl, by rw [hl]; rfl, ht,
    by norm_num, hcs, ?_⟩
  rw [hcs]
  intro hcon
  rw [show (83 / 10 : ℚ) - 33 / 4 = 1 / 20 by norm_num] at hcon
  rw [abs_of_pos (by norm_num : (0 : ℚ) < 1 / 20)] at hcon
  norm_num at hcon

/-- C5, counterexample: the claim says conviction is HIGH exactly in the
extreme bands with agreement and **MEDIUM otherwise**; at composite score
55 (not an extreme band, full agreement between equal sub-scores) the code
returns conviction LOW, not MEDIUM, because both HOLD bands hard-code
LOW. -/
theorem hold_band_conviction_is_low :
    (determineSignal 55 ⟨55, 55, 55, 55, 55⟩).1 = SignalType.HOLD ∧
    (determineSignal 55 ⟨55, 55, 55, 55, 55⟩).2 = ConvictionLevel.LOW ∧
    ConvictionLevel.LOW ≠ ConvictionLevel.MEDIUM ∧
    ¬(85 ≤ (55 : ℚ) ∨ (55 : ℚ) < 25) ∧
    agreement 55 55 55 = true := by
  have hs : determineSignal 55 ⟨55, 55, 55, 55, 55⟩ =
      (SignalType.HOLD, ConvictionLevel.LOW) := by
    unfold determineSignal
    rw [if_neg (by norm_num), if_pos (by norm_num)]
  refine ⟨by rw [hs], by rw [hs], by decide, by norm_num, ?_⟩
  unfold agreement scoreVariance lynchOr50
  rw [if_neg (by norm_num)]
  norm_num

/-- C5, amended: the signal bands are ≥70 BUY, [35,70) HOLD (two code
branches with the same outcome), <35 AVOID; agreement holds iff the
population variance of {minervini, weinstein, lynch-or-50} is below 15²
(equivalently, population standard deviation below 15); conviction is HIGH
exactly in an extreme band (≥85 or <25) with agreement, **LOW** on the whole
HOLD band [35,70), and MEDIUM otherwise. -/
theorem determine_signal_characterization :
    ∀ (c : ℚ) (s : StrategyScores),
      determineSignal c s =
        ((if 70 ≤ c then SignalType.BUY
          else if 35 ≤ c then SignalType.HOLD
          else SignalType.AVOID),
         (if (85 ≤ c ∨ c < 25) ∧
              agreement s.minervini_score s.weinstein_score s.lynch_score = true
          then ConvictionLevel.HIGH
          else if 35 ≤ c ∧ c < 70 then ConvictionLevel.LOW
          else ConvictionLevel.MEDIUM)) ∧
      (agreement s.minervini_score s.weinstein_score s.lynch_score = true ↔
        scoreVariance s.minervini_score s.weinstein_score s.lynch_score <
          225) := by
  intro c s
  constructor
  · unfold determineSignal
    by_cases h1 : 70 ≤ c
    · rw [if_pos h1, if_pos h1]
      by_cases h2 : 85 ≤ c ∧
          agreement s.minervini_score s.weinstein_score s.lynch_score = true
      · rw [if_pos h2, if_pos ⟨Or.inl h2.1, h2.2⟩]
      · rw [if_neg h2]
        rw [if_neg (by rintro ⟨hor, ha⟩
                       rcases hor with hor | hor
                       · exact h2 ⟨hor, ha⟩
                       · linarith)]
        rw [if_neg (by rintro ⟨-, hlt⟩; linarith)]
    · rw [if_neg h1, if_neg h1]
      by_cases h3 : 50 ≤ c
      · rw [if_pos h3, if_pos (by linarith)]
        rw [if_neg (by rintro ⟨hor, -⟩
                       rcases hor with hor | hor <;> linarith)]
        rw [if_pos ⟨by linarith, by linarith⟩]
      · rw [if_neg h3]
        by_cases h4 : 35 ≤ c
        · rw [if_pos h4, if_pos h4]
          rw [if_neg (by rintro ⟨hor, -⟩
                         rcases hor with hor | hor <;> linarith)]
          rw [if_pos ⟨h4, by linarith⟩]
        · rw [if_neg h4, if_neg h4]
          by_cases h5 : c < 25 ∧
              agreement s.minervini_score s.weinstein_score s.lynch_score = true
          · rw [if_pos h5, if_pos ⟨Or.inr h5.1, h5.2⟩]
          · rw [if_neg h5]
            rw [if_neg (by rintro ⟨hor, ha⟩
                           rcases hor with hor | hor
                           · linarith
                           · exact h5 ⟨hor, ha⟩)]
            rw [if_neg (by rintro ⟨hge, -⟩; linarith)]
  · unfold agreement
    exact decide_eq_true_iff

/-- C6: each scorer, invoked with fewer bars than its gate, returns exactly
the fixed insufficient-data result — score 0, the "Insufficient data"
bearish factor, signal AVOID and conviction LOW — and never anything else
(the embedding is a total function, so no exception is possible); at
exactly the documented minimum bar counts (200 Minervini, 150 Weinstein,
50 Lynch) each scorer still returns a well-defined result with a score in
[0, 100].  The claim's Lynch minimum of 50 bars is below the code's 100-bar
gate, so "fewer than 50 bars" inputs also receive the insufficient
result. -/
theorem insufficient_data_gating :
    (∀ (bars : List Bar) (ind : Indicators), bars.length < 200 →
      minerviniAnalyze bars ind = minerviniInsufficient) ∧
    (∀ (bars : List Bar) (ind : Indicators), bars.length < 150 →
      weinsteinAnalyze bars ind = weinsteinInsufficient) ∧
    (∀ (bars : List Bar) (ind : Indicators), bars.length < 50 →
      lynchAnalyze bars ind = lynchInsufficient) ∧
    (minerviniInsufficient.score = 0 ∧
      minerviniInsufficient.bearishFactors = ["Insufficient data"] ∧
      minerviniInsufficient.signal = "AVOID" ∧
      minerviniInsufficient.conviction = "LOW") ∧
    (weinsteinInsufficient.score = 0 ∧
      weinsteinInsufficient.bearishFactors = ["Insufficient data"] ∧
      weinsteinInsufficient.signal = "AVOID" ∧
      weinsteinInsufficient.conviction = "LOW") ∧
    (lynchInsufficient.score = 0 ∧
      lynchInsufficient.bearishFactors = ["Insufficient data"] ∧
      lynchInsufficient.signal = "AVOID" ∧
      lynchInsufficient.conviction = "LOW") ∧
    (∀ (bars : List Bar) (ind : Indicators), bars.length = 200 →
      0 ≤ (minerviniAnalyze bars ind).score ∧
        (minerviniAnalyze bars ind).score ≤ 100) ∧
    (∀ (bars : List Bar) (ind : Indicators), bars.length = 150 →
      0 ≤ (weinsteinAnalyze bars ind).score ∧
        (weinsteinAnalyze bars ind).score ≤ 100) ∧
    (∀ (bars : List Bar) (ind : Indicators), bars.length = 50 →
      0 ≤ (lynchAnalyze bars ind).score ∧
        (lynchAnalyze bars ind).score ≤ 100) := by
  refine ⟨?_, ?_, ?_, ⟨rfl, rfl, rfl, rfl⟩, ⟨rfl, rfl, rfl, rfl⟩,
    ⟨rfl, rfl, rfl, rfl⟩, ?_, ?_, ?_⟩
  · intro bars ind h
    unfold minerviniAnalyze
    rw [if_pos h]
  · intro bars ind h
    unfold weinsteinAnalyze
    rw [if_pos h]
  · intro bars ind h
    unfold lynchAnalyze
    rw [if_pos (by omega)]
  · intro bars ind _
    exact minerviniAnalyze_score_bounds bars ind
  · intro bars ind _
    exact weinsteinAnalyze_score_bounds bars ind
  · intro bars ind _
    exact lynchAnalyze_score_bounds bars ind

/-- Witness for C6 at concrete inputs: a 10-bar series is rejected by all
three scorers with the exact insufficient-data results, and at the exact
minima the returned scores are within bounds. -/
theorem insufficient_data_gating_witness :
    minerviniAnalyze (constBars 10 100) emptyIndicators =
      minerviniInsufficient ∧
    weinsteinAnalyze (constBars 10 100) emptyIndicators =
      weinsteinInsufficient ∧
    lynchAnalyze (constBars 10 100) emptyIndicators = lynchInsufficient ∧
    (0 ≤ (minerviniAnalyze (constBars 200 100) emptyIndicators).score ∧
      (minerviniAnalyze (constBars 200 100) emptyIndicators).score ≤ 100) ∧
    (0 ≤ (weinsteinAnalyze (constBars 150 100) emptyIndicators).score ∧
      (weinsteinAnalyze (constBars 150 100) emptyIndicators).score ≤ 100) ∧
    (0 ≤ (lynchAnalyze (constBars 50 100) emptyIndicators).score ∧
      (lynchAnalyze (constBars 50 100) emptyIndicators).score ≤ 100) :=
  ⟨insufficient_data_gating.1 _ _ (by rw [length_constBars]; omega),
    insufficient_data_gating.2.1 _ _ (by rw [length_constBars]; omega),
    insufficient_data_gating.2.2.1 _ _ (by rw [length_constBars]; omega),
    insufficient_data_gating.2.2.2.2.2.2.1 _ _ (length_constBars 200 100),
    insufficient_data_gating.2.2.2.2.2.2.2.1 _ _ (length_constBars 150 100),
    insufficient_data_gating.2.2.2.2.2.2.2.2 _ _ (length_constBars 50 100)⟩

/-- C8: every analyze result's score lies in [0, 100], and every named
sub-score lies in its documented sub-range — Minervini 25/25/20/15/15,
Weinstein 40/25/20/15, Lynch 30/25/20/15/10 (summing to 100) — on **all**
inputs, so no single sub-score can push a total outside its bounds. -/
theorem scorer_and_subscore_bounds :
    ∀ (bars : List Bar) (ind : Indicators),
      (0 ≤ (minerviniAnalyze bars ind).score ∧
        (minerviniAnalyze bars ind).score ≤ 100) ∧
      (0 ≤ (weinsteinAnalyze bars ind).score ∧
        (weinsteinAnalyze bars ind).score ≤ 100) ∧
      (0 ≤ (lynchAnalyze bars ind).score ∧
        (lynchAnalyze bars ind).score ≤ 100) ∧
      (0 ≤ minerviniScoreSetup bars ind ∧ minerviniScoreSetup bars ind ≤ 25) ∧
      (0 ≤ minerviniScoreVcp bars ∧ minerviniScoreVcp bars ≤ 25) ∧
      (0 ≤ minerviniScoreVolume bars ind ∧
        minerviniScoreVolume bars ind ≤ 20) ∧
      (0 ≤ minerviniScoreRelativeStrength bars ind ∧
        minerviniScoreRelativeStrength bars ind ≤ 15) ∧
      (0 ≤ minerviniScoreMarketAlignment ind ∧
        minerviniScoreMarketAlignment ind ≤ 15) ∧
      (0 ≤ weinsteinScoreStage (weinsteinStrategyStage bars) ∧
        weinsteinScoreStage (weinsteinStrategyStage bars) ≤ 40) ∧
      (0 ≤ weinsteinScoreMaRelationship bars ind ∧
        weinsteinScoreMaRelationship bars ind ≤ 25) ∧
      (0 ≤ weinsteinScorePriceAction bars ind ∧
        weinsteinScorePriceAction bars ind ≤ 20) ∧
      (0 ≤ weinsteinScoreVolume bars ∧ weinsteinScoreVolume bars ≤ 15) ∧
      (0 ≤ lynchScoreTrendConsistency bars ind ∧
        lynchScoreTrendConsistency bars ind ≤ 30) ∧
      (0 ≤ lynchScorePullbackQuality bars ind ∧
        lynchScorePullbackQuality bars ind ≤ 25) ∧
      (0 ≤ lynchScoreVolumePatterns bars ind ∧
        lynchScoreVolumePatterns bars ind ≤ 20) ∧
      (0 ≤ lynchScoreMomentum ind ∧ lynchScoreMomentum ind ≤ 15) ∧
      (0 ≤ lynchScoreVolatility bars ind ∧ lynchScoreVolatility bars ind ≤ 10) :=
  fun bars ind =>
    ⟨minerviniAnalyze_score_bounds bars ind,
      weinsteinAnalyze_score_bounds bars ind,
      lynchAnalyze_score_bounds bars ind,
      minerviniScoreSetup_bounds bars ind,
      minerviniScoreVcp_bounds bars,
      minerviniScoreVolume_bounds bars ind,
      minerviniScoreRelativeStrength_bounds bars ind,
      minerviniScoreMarketAlignment_bounds ind,
      weinsteinScoreStage_bounds (weinsteinStrategyStage bars),
      weinsteinScoreMaRelationship_bounds bars ind,
      weinsteinScorePriceAction_bounds bars ind,
      weinsteinScoreVolume_bounds bars,
      lynchScoreTrendConsistency_bounds bars ind,
      lynchScorePullbackQuality_bounds bars ind,
      lynchScoreVolumePatterns_bounds bars ind,
      lynchScoreMomentum_bounds ind,
      lynchScoreVolatility_bounds bars ind⟩

/-- C7: trade-suggestion synthesis returns no suggestion for HOLD; a fixed,
degenerate do-not-enter plan for AVOID; and for BUY an entry zone of
current price ± 0.5·ATR, a stop derived from the top supports but capped at
`entry − 1.5·ATR` (the reported stop never exceeds the rounded cap),
targets at `entry + risk·{1.5, 2.5, 4.0}` with the second capped to 98% of
the nearest resistance whenever that resistance lies strictly between entry
and the raw target, and the fixed conviction-based position-size lookup
{HIGH: 5%, MEDIUM: 3%, LOW: 1.5%}. -/
theorem trade_suggestion_synthesis :
    ∀ (bars : List Bar) (atr14 : Option ℚ) (patterns : List PatternMatch)
      (support resistance : List Level) (conviction : ConvictionLevel)
      (factors : StrategyFactors),
      generateTradeSuggestion bars atr14 patterns support resistance
          SignalType.HOLD conviction factors = none ∧
      generateTradeSuggestion bars atr14 patterns support resistance
          SignalType.AVOID conviction factors =
        some
          { action := SignalType.AVOID
            conviction := conviction
            entryPrice := lastD (closes bars)
            entryLow := lastD (closes bars) * (99 / 100)
            entryHigh := lastD (closes bars) * (101 / 100)
            entryTrigger := "Do not enter - wait for better setup"
            stopLoss := lastD (closes bars) * (105 / 100)
            stopLossType := "PERCENTAGE"
            stopLossPct := 5
            riskPerShare := lastD (closes bars) * (5 / 100)
            target1 := { price := lastD (closes bars), riskReward := 0,
                         description := "N/A" }
            target2 := { price := lastD (closes bars), riskReward := 0,
                         description := "N/A" }
            target3 := { price := lastD (closes bars), riskReward := 0,
                         description := "N/A" }
            suggestedPositionPct := 0
            maxPositionPct := 0
            riskRewardMult := 0
            holdingPeriod := "SWING"
            strategySource := "Composite Strategy"
            reasoning := "Current setup not favorable" ::
              factors.bearishFactors.take 3
            warnings := factors.warnings } ∧
      (let c := lastD (closes bars)
       let atr := if truthy atr14 then atr14.getD 0 else c * (2 / 100)
       let stopFromSupport :=
         if support ≠ [] then
           listMax ((support.take 3).map Level.price) - atr * (1 / 2)
         else c - atr * 2
       let stopLoss := min stopFromSupport (c - atr * (3 / 2))
       let risk := c - stopLoss
       let target2Raw := c + risk * (5 / 2)
       generateTradeSuggestion bars atr14 patterns support resistance
           SignalType.BUY conviction factors =
         some
           { action := SignalType.BUY
             conviction := conviction
             entryPrice := round2 c
             entryLow := round2 (c - atr * (1 / 2))
             entryHigh := round2 (c + atr * (1 / 2))
             entryTrigger :=
               match patterns with
               | p :: _ =>
                 match p.breakoutLevel with
                 | some _ => "Buy on breakout above level"
                 | none => "Current price level"
               | [] => "Current price level"
             stopLoss := round2 stopLoss
             stopLossType := if support ≠ [] then "SUPPORT" else "ATR"
             stopLossPct := round2 (risk / c * 100)
             riskPerShare := round2 risk
             target1 := { price := round2 (c + risk * (3 / 2)),
                          riskReward := 3 / 2,
                          description := "Conservative target" }
             target2 := { price := round2 (if resistance ≠ [] then
                            if c < (nearestLevelTo resistance c).price ∧
                                (nearestLevelTo resistance c).price < target2Raw
                            then (nearestLevelTo resistance c).price * (98 / 100)
                            else target2Raw
                          else target2Raw),
                          riskReward := 5 / 2,
                          description := "Moderate target" }
             target3 := { price := round2 (c + risk * 4), riskReward := 4,
                          description := "Aggressive target" }
             suggestedPositionPct :=
               match conviction with
               | ConvictionLevel.HIGH => 5
               | ConvictionLevel.MEDIUM => 3
               | ConvictionLevel.LOW => 3 / 2
             maxPositionPct :=
               (match conviction with
                 | ConvictionLevel.HIGH => (5 : ℚ)
                 | ConvictionLevel.MEDIUM => 3
                 | ConvictionLevel.LOW => 3 / 2) * (3 / 2)
             riskRewardMult := 2
             holdingPeriod := "SWING"
             strategySource := "Composite: Minervini + Weinstein + Lynch"
             reasoning :=
               (match patterns with
                 | p :: _ => ["Pattern: " ++ p.patternName]
                 | [] => []) ++ factors.bullishFactors.take 4
             warnings := factors.warnings } ∧
       round2 stopLoss ≤ round2 (c - atr * (3 / 2))) := by
  intro bars atr14 patterns support resistance conviction factors
  refine ⟨rfl, rfl, rfl, ?_⟩
  exact round2_mono (min_le_right _ _)

/-- C9: `_cluster_levels` merges exactly the anchor-based groups of the
price-sorted level list — a level joins the open cluster iff its price is
within `current_price · tolerance_pct/100` of the cluster's **first**
element — and `_merge_cluster` maps a singleton to itself (identity) while
a multi-level cluster collapses to the strength-weighted average price, the
summed touches, aggregate strength `min(5, total_strength // size + 1)`,
and a type re-derived from the merged price versus the current price. -/
theorem cluster_levels_anchor_merge :
    (∀ (l : Level) (cp : ℚ), mergeCluster [l] cp = l) ∧
    (∀ (a b : Level) (rest : List Level) (cp : ℚ),
      mergeCluster (a :: b :: rest) cp =
        { price := ((a :: b :: rest).map fun l =>
              l.price * (l.strength : ℚ)).sum /
            (((a :: b :: rest).map Level.strength).sum : ℚ)
          strength := min 5
            (((a :: b :: rest).map Level.strength).sum /
              (a :: b :: rest).length + 1)
          touches := ((a :: b :: rest).map Level.touches).sum
          level_type :=
            if ((a :: b :: rest).map fun l =>
                l.price * (l.strength : ℚ)).sum /
                (((a :: b :: rest).map Level.strength).sum : ℚ) < cp
            then "support" else "resistance"
          description := "Clustered level" }) ∧
    (∀ (tolerancePct cp : ℚ) (levels : List Level),
      clusterLevels tolerancePct levels cp =
        (anchorGroups (cp * (tolerancePct / 100))
          (sortByPrice levels)).map fun g => mergeCluster g cp) ∧
    (∀ (tol : ℚ) (xs g : List Level) (l : Level),
      g ∈ anchorGroups tol xs → l ∈ g.drop 1 →
        |l.price - (g.headD l).price| ≤ tol) := by
  refine ⟨fun l cp => rfl, fun a b rest cp => mergeCluster_pair a b rest cp,
    ?_, ?_⟩
  · intro tolerancePct cp levels
    unfold clusterLevels anchorGroups
    cases h : sortByPrice levels with
    | nil => rfl
    | cons a rest => exact clusterLoop_eq_map_merge _ cp rest a []
  · intro tol xs g l hg hl
    cases xs with
    | nil => cases hg
    | cons a rest =>
      exact anchorGroupsLoop_within tol rest a []
        (by intro y hy; cases hy) g hg l hl

/-- Witness for C9's anchor-tolerance conjunct at a concrete two-level
cluster: with tolerance 1 and levels priced 1 and 1.5, both levels land in
one anchor group and the non-anchor member is within tolerance of the
anchor. -/
theorem cluster_levels_anchor_merge_witness :
    |((⟨3 / 2, 4, 2, "resistance", "b"⟩ : Level)).price -
      (([(⟨1, 3, 1, "support", "a"⟩ : Level),
         (⟨3 / 2, 4, 2, "resistance", "b"⟩ : Level)].headD
          (⟨3 / 2, 4, 2, "resistance", "b"⟩ : Level))).price| ≤ 1 := by
  have hag : anchorGroups 1
      [(⟨1, 3, 1, "support", "a"⟩ : Level),
       (⟨3 / 2, 4, 2, "resistance", "b"⟩ : Level)] =
      [[(⟨1, 3, 1, "support", "a"⟩ : Level),
        (⟨3 / 2, 4, 2, "resistance", "b"⟩ : Level)]] := by
    unfold anchorGroups anchorGroupsLoop
    rw [if_pos (by rw [abs_le]; constructor <;> norm_num)]
    rfl
  exact cluster_levels_anchor_merge.2.2.2 1
    [⟨1, 3, 1, "support", "a"⟩, ⟨3 / 2, 4, 2, "resistance", "b"⟩]
    [⟨1, 3, 1, "support", "a"⟩, ⟨3 / 2, 4, 2, "resistance", "b"⟩]
    ⟨3 / 2, 4, 2, "resistance", "b"⟩
    (by rw [hag]; exact List.mem_singleton.mpr rfl)
    (by simp)

/-- C10: `detect_levels` only returns levels agreeing with their side of the
latest close — every returned support level is strictly below the current
price and typed "support", every returned resistance level strictly above
and typed "resistance"; consequently any level typed "support" that lies
above the current price (for instance a moving-average level, which
`_detect_ma_levels` always types "support") is excluded from both lists, as
is any level priced exactly at the current close. -/
theorem detect_levels_side_consistency :
    ∀ bars : List Bar,
      (∀ l ∈ (detectLevels bars).1,
        l.price < lastD (closes bars) ∧ l.level_type = "support") ∧
      (∀ l ∈ (detectLevels bars).2,
        lastD (closes bars) < l.price ∧ l.level_type = "resistance") ∧
      (∀ l ∈ detectMALevels bars, l.level_type = "support") ∧
      (∀ l : Level, l.level_type = "support" →
        lastD (closes bars) < l.price →
          l ∉ (detectLevels bars).1 ∧ l ∉ (detectLevels bars).2) ∧
      (∀ l : Level, l.price = lastD (closes bars) →
        l ∉ (detectLevels bars).1 ∧ l ∉ (detectLevels bars).2) := by
  intro bars
  refine ⟨fun l hl => detectLevels_mem_support hl,
    fun l hl => detectLevels_mem_resistance hl, ?_, ?_, ?_⟩
  · intro l hl
    unfold detectMALevels at hl
    rcases List.mem_filterMap.mp hl with ⟨p, hp, hpl⟩
    split_ifs at hpl
    cases hpl
    rfl
  · intro l hsup hgt
    constructor
    · intro hmem
      have h := (detectLevels_mem_support hmem).1
      linarith
    · intro hmem
      have h := (detectLevels_mem_resistance hmem).2
      have hcontra : ("support" : String) = "resistance" := by
        rw [← hsup, h]
      exact absurd hcontra (by decide)
  · intro l hpe
    constructor
    · intro hmem
      have h := (detectLevels_mem_support hmem).1
      rw [hpe] at h
      exact lt_irrefl _ h
    · intro hmem
      have h := (detectLevels_mem_resistance hmem).1
      rw [hpe] at h
      exact lt_irrefl _ h

/-- Witness for C10's exclusion conjuncts at a concrete 10-bar constant
series (latest close 100): a support-typed level priced 200 (above the
close) is in neither returned list, and a level priced exactly at the close
is in neither list. -/
theorem detect_levels_side_consistency_witness :
    ((⟨200, 2, 0, "support", "ma"⟩ : Level) ∉
        (detectLevels (constBars 10 100)).1 ∧
      (⟨200, 2, 0, "support", "ma"⟩ : Level) ∉
        (detectLevels (constBars 10 100)).2) ∧
    ((⟨100, 3, 1, "support", "x"⟩ : Level) ∉
        (detectLevels (constBars 10 100)).1 ∧
      (⟨100, 3, 1, "support", "x"⟩ : Level) ∉
        (detectLevels (constBars 10 100)).2) := by
  have hc : lastD (closes (constBars 10 100)) = 100 := by
    rw [closes_constBars]
    exact lastD_replicate (by omega)
  constructor
  · exact (detect_levels_side_consistency (constBars 10 100)).2.2.2.1
      ⟨200, 2, 0, "support", "ma"⟩ rfl (by norm_num [hc])
  · exact (detect_levels_side_consistency (constBars 10 100)).2.2.2.2
      ⟨100, 3, 1, "support", "x"⟩ (by norm_num [hc])
